import Mathlib

/-!
BetterStack uptime summaries: classification, aggregation, throttle

A shallow embedding of the two monitoring scripts

* `better-stack-alert-summary/monitor-uptimes-endpoint.js` (two environments, with the
  24 h "no alert" throttle), namespace `AlertSummary`;
* `betterstack/slack/monitor-uptimes-endpoint.js` (three environments, no throttle),
  namespace `Slack`.

JavaScript strings are handled as lists of characters.  `console.log` output is not part
of the model.
-/

set_option autoImplicit false

namespace BetterStack

/-! ## Strings -/

/-- The parts of the JavaScript runtime that are taken as given: the Unicode case mappings
of non-ASCII characters, applied character by character, and the floating-point
computation `((up / total) * 100).toFixed(1)` for `total > 0`. -/
structure JsHost where
  lower : Char → List Char
  upper : Char → List Char
  percent : Nat → Nat → String

/-- One character of `String.prototype.toLowerCase`.  ECMAScript fixes the result on ASCII
(`A`..`Z` go to `a`..`z`, every other ASCII character is kept); the lower-case expansion of
a non-ASCII character comes from the host. -/
def lowerChar (h : JsHost) (c : Char) : List Char :=
  if c.toNat < 128 then [c.toLower] else h.lower c

/-- `s.toLowerCase()`. -/
def toLowerCase (h : JsHost) (s : String) : List Char :=
  s.data.flatMap (lowerChar h)

/-- One character of `String.prototype.toUpperCase`. -/
def upperChar (h : JsHost) (c : Char) : List Char :=
  if c.toNat < 128 then [c.toUpper] else h.upper c

/-- `s.toUpperCase()`. -/
def toUpperCase (h : JsHost) (s : String) : String :=
  String.mk (s.data.flatMap (upperChar h))

/-- `s.length`: the number of UTF-16 code units. -/
def jsLength (s : String) : Nat :=
  (s.data.map (fun c => if c.toNat < 65536 then 1 else 2)).sum

/-- `s.startsWith(p)` at position 0. -/
def startsWith : List Char → List Char → Bool
  | _, [] => true
  | [], _ :: _ => false
  | c :: s, d :: p => c == d && startsWith s p

/-- `s.includes(p)`: `p` occurs in `s` as a contiguous run. -/
def includes : List Char → List Char → Bool
  | [], p => startsWith [] p
  | c :: s, p => startsWith (c :: s) p || includes s p

/-- Two characters are equal or are the two cases of one ASCII letter. -/
def sameCharUpToCase (c d : Char) : Bool :=
  c == d || (c.toNat < 128 && d.toNat < 128 && c.toLower == d.toLower)

/-- Two strings differ at most in the case of their ASCII letters. -/
def sameUpToCase : List Char → List Char → Bool
  | [], [] => true
  | c :: s, d :: t => sameCharUpToCase c d && sameUpToCase s t
  | _, _ => false

/-! ## Monitors -/

/-- The `attributes` object of a monitor record of the BetterStack API. -/
structure Attributes where
  url : String
  pronounceable_name : Option String
  status : String
deriving DecidableEq

/-- A monitor record: `{ id, attributes }`. -/
structure Monitor where
  id : String
  attributes : Attributes
deriving DecidableEq

/-- Two monitor records are equal except possibly for the case of the ASCII letters of
their URL. -/
def sameMonitorUpToCase (m m' : Monitor) : Bool :=
  m.id == m'.id
    && sameUpToCase m.attributes.url.data m'.attributes.url.data
    && m.attributes.pronounceable_name == m'.attributes.pronounceable_name
    && m.attributes.status == m'.attributes.status

/-- Two monitor lists of the same length whose monitors at each position are equal up to
the case of the URL. -/
def sameMonitorsUpToCase : List Monitor → List Monitor → Bool
  | [], [] => true
  | m :: ms, m' :: ms' => sameMonitorUpToCase m m' && sameMonitorsUpToCase ms ms'
  | _, _ => false

/-- The environment buckets a monitor can be pushed to. -/
inductive Bucket where
  | production
  | staging
  | explorerPreprod
deriving DecidableEq

namespace AlertSummary

/-- The `categories` object of the two-environment script. -/
structure Categories where
  production : List Monitor
  staging : List Monitor
deriving DecidableEq

/-- The body of the `forEach` callback of `categorizeMonitors`: the `if`/`else if` chain
on the lower-cased URL, pushing the monitor to the end of one bucket or to none. -/
def categorizeStep (h : JsHost) (categories : Categories) (monitor : Monitor) :
    Categories :=
  let url := toLowerCase h monitor.attributes.url
  if includes url "explorer-api-2.mobula.io".data then
    { categories with production := categories.production ++ [monitor] }
  else if includes url "explorer-api.mobula.io".data then
    { categories with staging := categories.staging ++ [monitor] }
  else if includes url "explorer-api.zobula.xyz".data then
    { categories with staging := categories.staging ++ [monitor] }
  else if includes url "api.mobula.io".data then
    { categories with production := categories.production ++ [monitor] }
  else if includes url "api.zobula.xyz".data then
    { categories with staging := categories.staging ++ [monitor] }
  else
    categories

/-- `categorizeMonitors(monitors)` of the two-environment script. -/
def categorizeMonitors (h : JsHost) (monitors : List Monitor) : Categories :=
  monitors.foldl (categorizeStep h) { production := [], staging := [] }

/-- The bucket the `forEach` callback pushes a monitor to, read off one step on empty
buckets. -/
def bucketOf (h : JsHost) (monitor : Monitor) : Option Bucket :=
  let c := categorizeStep h { production := [], staging := [] } monitor
  if c.production ≠ [] then some Bucket.production
  else if c.staging ≠ [] then some Bucket.staging
  else none

/-- Following the spec: the ordered rule list, URL substring to environment. -/
def rules : List (String × Bucket) :=
  [("explorer-api-2.mobula.io", Bucket.production),
   ("explorer-api.mobula.io", Bucket.staging),
   ("explorer-api.zobula.xyz", Bucket.staging),
   ("api.mobula.io", Bucket.production),
   ("api.zobula.xyz", Bucket.staging)]

/-- Following the spec: the environment of the first rule, top to bottom, whose substring
occurs in the (lower-cased) URL; `none` when no rule matches. -/
def firstMatch : List (String × Bucket) → List Char → Option Bucket
  | [], _ => none
  | (pattern, bucket) :: rest, url =>
    if includes url pattern.data then some bucket else firstMatch rest url

/-- Following the spec: the monitors whose first matching rule names `bucket`, in input
order; the substring tests are case-insensitive. -/
def classify (h : JsHost) (rs : List (String × Bucket)) (monitors : List Monitor)
    (bucket : Bucket) : List Monitor :=
  monitors.filter (fun m => decide (firstMatch rs (toLowerCase h m.attributes.url) = some bucket))

end AlertSummary

namespace Slack

/-- The `categories` object of the three-environment script. -/
structure Categories where
  production : List Monitor
  staging : List Monitor
  explorerPreprod : List Monitor
deriving DecidableEq

/-- The body of the `forEach` callback of `categorizeMonitors` (three environments). -/
def categorizeStep (h : JsHost) (categories : Categories) (monitor : Monitor) :
    Categories :=
  let url := toLowerCase h monitor.attributes.url
  if includes url "explorer-api.zobula.xyz/health".data then
    { categories with explorerPreprod := categories.explorerPreprod ++ [monitor] }
  else if includes url "api.mobula.io".data then
    { categories with production := categories.production ++ [monitor] }
  else if includes url "api.zobula.xyz".data
      && !includes url "explorer-api.zobula.xyz".data then
    { categories with staging := categories.staging ++ [monitor] }
  else
    categories

/-- `categorizeMonitors(monitors)` of the three-environment script. -/
def categorizeMonitors (h : JsHost) (monitors : List Monitor) : Categories :=
  monitors.foldl (categorizeStep h) { production := [], staging := [], explorerPreprod := [] }

/-- The bucket the `forEach` callback pushes a monitor to, read off one step on empty
buckets. -/
def bucketOf (h : JsHost) (monitor : Monitor) : Option Bucket :=
  let c := categorizeStep h { production := [], staging := [], explorerPreprod := [] } monitor
  if c.explorerPreprod ≠ [] then some Bucket.explorerPreprod
  else if c.production ≠ [] then some Bucket.production
  else if c.staging ≠ [] then some Bucket.staging
  else none

end Slack

/-! ## Status aggregation and message rendering (the same text in both scripts) -/

/-- A value read from or stored in `statusCounts`: a number, a string, or an object or
function of `Object.prototype`, given by the text it turns into in a string context. -/
inductive JsValue where
  | number (n : Nat)
  | text (s : String)
  | object (printed : String)
deriving DecidableEq

/-- The properties a plain object inherits from `Object.prototype`, each with the text its
value turns into when something is added to it (as Node prints it): the functions give
their source text, and `__proto__` reads `Object.prototype` itself. -/
def objectPrototypeMembers : List (String × String) :=
  [("constructor", "function Object() \x7b [native code] \x7d"),
   ("__proto__", "[object Object]"),
   ("hasOwnProperty", "function hasOwnProperty() \x7b [native code] \x7d"),
   ("isPrototypeOf", "function isPrototypeOf() \x7b [native code] \x7d"),
   ("propertyIsEnumerable", "function propertyIsEnumerable() \x7b [native code] \x7d"),
   ("toLocaleString", "function toLocaleString() \x7b [native code] \x7d"),
   ("toString", "function toString() \x7b [native code] \x7d"),
   ("valueOf", "function valueOf() \x7b [native code] \x7d"),
   ("__defineGetter__", "function __defineGetter__() \x7b [native code] \x7d"),
   ("__defineSetter__", "function __defineSetter__() \x7b [native code] \x7d"),
   ("__lookupGetter__", "function __lookupGetter__() \x7b [native code] \x7d"),
   ("__lookupSetter__", "function __lookupSetter__() \x7b [native code] \x7d")]

/-- The `statusCounts` object: its own properties, each key once, kept in the order they
were added (the code never enumerates them).  What it inherits from `Object.prototype` is
in `objectPrototypeMembers`. -/
abbrev StatusCounts := List (String × JsValue)

/-- `statusCounts[key] || 0`: the own property when there is one, else the member
inherited from `Object.prototype`, else `undefined`; a falsy value (`undefined`, `0`, the
empty string) gives `0`. -/
def StatusCounts.get (counts : StatusCounts) (key : String) : JsValue :=
  match counts.lookup key with
  | some (JsValue.text s) => if s = "" then JsValue.number 0 else JsValue.text s
  | some v => v
  | none =>
    match objectPrototypeMembers.lookup key with
    | some printed => JsValue.object printed
    | none => JsValue.number 0

/-- `value + 1`: addition on a number, string concatenation on anything else. -/
def JsValue.plusOne : JsValue → JsValue
  | JsValue.number n => JsValue.number (n + 1)
  | JsValue.text s => JsValue.text (s ++ "1")
  | JsValue.object printed => JsValue.text (printed ++ "1")

/-- The text of a value inside a template literal. -/
def JsValue.toText : JsValue → String
  | JsValue.number n => toString n
  | JsValue.text s => s
  | JsValue.object printed => printed

/-- The number a value is, `0` for a value that is not a number. -/
def JsValue.toNat : JsValue → Nat
  | JsValue.number n => n
  | _ => 0

/-- Overwrite an own property, else add one at the end. -/
def StatusCounts.setOwn : StatusCounts → String → JsValue → StatusCounts
  | [], key, value => [(key, value)]
  | (k, v) :: rest, key, value =>
    if k == key then (k, value) :: rest else (k, v) :: StatusCounts.setOwn rest key value

/-- `statusCounts[key] = value` for a number or a string `value`: the key `__proto__` goes
to the setter of `Object.prototype`, which ignores a value that is not an object; any other
key overwrites the own property or adds one at the end (the inherited members are
writable, so the assignment makes an own property). -/
def StatusCounts.set (counts : StatusCounts) (key : String) (value : JsValue) : StatusCounts :=
  if key = "__proto__" then counts else StatusCounts.setOwn counts key value

/-- The local variables `statusCounts` and `downMonitors` of
`createEnvironmentStatusMessage`. -/
structure Aggregate where
  statusCounts : StatusCounts
  downMonitors : List Monitor
deriving DecidableEq

/-- The body of the `forEach` callback of `createEnvironmentStatusMessage`. -/
def aggregateStep (includeDownMonitors : Bool) (acc : Aggregate) (monitor : Monitor) :
    Aggregate :=
  let status := monitor.attributes.status
  { statusCounts := acc.statusCounts.set status (acc.statusCounts.get status).plusOne
    downMonitors :=
      if status == "down" && includeDownMonitors then acc.downMonitors ++ [monitor]
      else acc.downMonitors }

/-- The state of `statusCounts` and `downMonitors` after the `forEach` loop of
`createEnvironmentStatusMessage`. -/
def aggregate (monitors : List Monitor) (includeDownMonitors : Bool) : Aggregate :=
  monitors.foldl (aggregateStep includeDownMonitors)
    { statusCounts :=
        [("up", JsValue.number 0), ("down", JsValue.number 0), ("paused", JsValue.number 0),
         ("validating", JsValue.number 0)]
      downMonitors := [] }

/-- The local `totalMonitors` of `createEnvironmentStatusMessage`. -/
def totalMonitors (monitors : List Monitor) : Nat := monitors.length

/-- `((operationalCount / totalMonitors) * 100).toFixed(1)`: a division by zero gives
`NaN` (or `Infinity`), which `toFixed` prints by name. -/
def uptimePercentage (h : JsHost) (operationalCount total : Nat) : String :=
  if total = 0 then (if operationalCount = 0 then "NaN" else "Infinity")
  else h.percent operationalCount total

/-- The object returned by `createEnvironmentStatusMessage`. -/
structure StatusMessage where
  message : String
  downMonitors : List Monitor
deriving DecidableEq

/-- The percentage text for an `operationalCount` read from `statusCounts`: a value that
is not a number divides to `NaN` (the strings the loop can store are no numerals). -/
def uptimePercentageOf (h : JsHost) (operationalCount : JsValue) (total : Nat) : String :=
  match operationalCount with
  | JsValue.number n => uptimePercentage h n total
  | _ => "NaN"

/-- `createEnvironmentStatusMessage(monitors, environmentName, includeDownMonitors)`. -/
def createEnvironmentStatusMessage (h : JsHost) (monitors : List Monitor)
    (environmentName : String) (includeDownMonitors : Bool) : StatusMessage :=
  let agg := aggregate monitors includeDownMonitors
  let statusCounts := agg.statusCounts
  let total := totalMonitors monitors
  let operationalCount := statusCounts.get "up"
  let pct := uptimePercentageOf h operationalCount total
  let message := ":warning: " ++ toUpperCase h environmentName ++ " Status - " ++ pct
    ++ "% Operational\n"
  let message := message ++ ":bar_chart: " ++ toUpperCase h environmentName
    ++ " Environment Overview - " ++ (statusCounts.get "down").toText ++ " Services Down\n"
  let message := message ++ "*Total Monitors*\n" ++ toString total ++ "\n"
  let message := message ++ "*Operational*\n:small_blue_diamond: "
    ++ operationalCount.toText ++ "\n"
  let message := message ++ "*Down*\n:small_red_triangle_down: "
    ++ (statusCounts.get "down").toText ++ "\n"
  let message := message ++ "*Paused*\n:double_vertical_bar: "
    ++ (statusCounts.get "paused").toText ++ "\n"
  let message := message ++ "*Validating*\n:arrows_counterclockwise: "
    ++ (statusCounts.get "validating").toText ++ "\n"
  { message := message, downMonitors := agg.downMonitors }

/-- The numbers `createEnvironmentStatusMessage` puts in the summary: `totalMonitors`,
`operationalCount`, and the `down`, `paused` and `validating` entries of `statusCounts`. -/
structure SummaryFigures where
  total : Nat
  operational : Nat
  down : Nat
  paused : Nat
  validating : Nat
deriving DecidableEq

/-- The numbers of the summary of a bucket; the four entries read from `statusCounts` are
always numbers. -/
def summaryFigures (monitors : List Monitor) (includeDownMonitors : Bool) : SummaryFigures :=
  let statusCounts := (aggregate monitors includeDownMonitors).statusCounts
  { total := totalMonitors monitors
    operational := (statusCounts.get "up").toNat
    down := (statusCounts.get "down").toNat
    paused := (statusCounts.get "paused").toNat
    validating := (statusCounts.get "validating").toNat }

/-- The template of the summary message of `createEnvironmentStatusMessage`, filled with
the text of the percentage and the numbers. -/
def renderSummary (h : JsHost) (environmentName pct : String) (f : SummaryFigures) : String :=
  ":warning: " ++ toUpperCase h environmentName ++ " Status - " ++ pct ++ "% Operational\n"
    ++ ":bar_chart: " ++ toUpperCase h environmentName ++ " Environment Overview - "
    ++ toString f.down ++ " Services Down\n"
    ++ "*Total Monitors*\n" ++ toString f.total ++ "\n"
    ++ "*Operational*\n:small_blue_diamond: " ++ toString f.operational ++ "\n"
    ++ "*Down*\n:small_red_triangle_down: " ++ toString f.down ++ "\n"
    ++ "*Paused*\n:double_vertical_bar: " ++ toString f.paused ++ "\n"
    ++ "*Validating*\n:arrows_counterclockwise: " ++ toString f.validating ++ "\n"

/-- The statuses the summary shows a count for. -/
def shownStatuses : List String := ["up", "down", "paused", "validating"]

/-- `ensureHttps(url)`. -/
def ensureHttps (url : String) : String :=
  if !startsWith url.data "http://".data && !startsWith url.data "https://".data then
    "https://" ++ url
  else url

/-- The chunking loop `for (let i = 0; i < n; i += k) chunks.push(slice(i, i + k))`,
started at index `i`.  The first argument bounds the number of iterations; with `k >= 1`
the loop ends within `n` iterations, with `k = 0` the source loop does not end. -/
def chunkLoop {α : Type} (xs : List α) (k : Nat) : Nat → Nat → List (List α)
  | 0, _ => []
  | fuel + 1, i =>
    if i < xs.length then ((xs.drop i).take k) :: chunkLoop xs k fuel (i + k) else []

/-- The `chunks` array of `createDownMonitorsMessage`. -/
def chunks {α : Type} (xs : List α) (k : Nat) : List (List α) :=
  chunkLoop xs k xs.length 0

/-- The text added to a message for one down monitor. -/
def renderMonitor (monitor : Monitor) : String :=
  let name :=
    match monitor.attributes.pronounceable_name with
    | some n => if n = "" then monitor.attributes.url else n
    | none => monitor.attributes.url
  let monitorId := monitor.id
  let monitorUrl := ensureHttps monitor.attributes.url
  let betterStackUrl := "https://uptime.betterstack.com/team/t161704/monitors/" ++ monitorId
  let pathDisplay :=
    if jsLength monitorUrl > 100 then "<" ++ monitorUrl ++ "|path>" else monitorUrl
  "• <" ++ betterStackUrl ++ "|" ++ name ++ ">\n  path: " ++ pathDisplay ++ "\n"

/-- The local `pathDisplay` of `createDownMonitorsMessage` for one monitor. -/
def pathDisplay (monitor : Monitor) : String :=
  let monitorUrl := ensureHttps monitor.attributes.url
  if jsLength monitorUrl > 100 then "<" ++ monitorUrl ++ "|path>" else monitorUrl

/-- The first line of the message for the chunk at position `index`. -/
def chunkHeader (index : Nat) : String :=
  if index = 0 then ":red_circle: Service Currently Down\n"
  else ":red_circle: Service Currently Down (continued)\n"

/-- The message built for the chunk at position `index`. -/
def renderChunk (index : Nat) (chunk : List Monitor) : String :=
  let header :=
    if index = 0 then ":red_circle: Service Currently Down\n"
    else ":red_circle: Service Currently Down (continued)\n"
  chunk.foldl (fun message monitor => message ++ renderMonitor monitor) header

/-- The `chunks.forEach((chunk, index) => ...)` loop, from position `index` on. -/
def renderChunks : Nat → List (List Monitor) → List String
  | _, [] => []
  | index, chunk :: rest => renderChunk index chunk :: renderChunks (index + 1) rest

/-- `createDownMonitorsMessage(downMonitors, maxMonitorsPerMessage)`; the scripts call it
with the default `maxMonitorsPerMessage = 15`. -/
def createDownMonitorsMessage (downMonitors : List Monitor)
    (maxMonitorsPerMessage : Nat) : List String :=
  if downMonitors.length = 0 then [""]
  else renderChunks 0 (chunks downMonitors maxMonitorsPerMessage)

/-! ## Fetching the monitors -/

/-- What one `fetch` of a page of monitors gives: a failure (network error, a response that
is not `ok`, a body that cannot be read), or the `data` array and whether
`pagination.next` is set. -/
inductive PageResponse where
  | failure
  | page (data : List Monitor) (next : Bool)
deriving DecidableEq

/-- The `while (hasMorePages)` loop of `fetchAllMonitors`, given the responses to the
successive requests and the monitors collected so far.  A request beyond the last modelled
response counts as failed. -/
def fetchLoop : List PageResponse → List Monitor → List Monitor
  | [], allMonitors => allMonitors
  | PageResponse.failure :: _, allMonitors => allMonitors
  | PageResponse.page data next :: rest, allMonitors =>
    if next then fetchLoop rest (allMonitors ++ data) else allMonitors ++ data

/-- `fetchAllMonitors()`. -/
def fetchAllMonitors (pages : List PageResponse) : List Monitor :=
  fetchLoop pages []

/-- Following the spec: the `data` of the pages fetched, in page order, up to the first
failure (not included) or the first page without a next link (included). -/
def pagesFetched : List PageResponse → List (List Monitor)
  | [] => []
  | PageResponse.failure :: _ => []
  | PageResponse.page data next :: rest =>
    data :: (if next then pagesFetched rest else [])

/-! ## Effects: clock, webhook, state backend -/

/-- The persisted throttle record `{ lastNotificationTime }`. -/
structure ThrottleState where
  lastNotificationTime : Int
deriving DecidableEq

/-- An operation on the outside world. -/
inductive Event where
  | post (webhookUrl : String) (text : String)
  | read (key : String)
  | write (key : String) (value : ThrottleState)
deriving DecidableEq

/-- The answers of the outside world, indexed by the number of external operations
(clock readings, webhook posts, backend reads and writes) made before. -/
structure Oracle where
  now : Nat → Int
  postOk : Nat → Bool
  readOk : Nat → Bool
  writeOk : Nat → Bool

/-- The state a run acts on: the persisted throttle records by key, the number of external
operations made so far, and their record. -/
structure World where
  store : String → Option ThrottleState
  tick : Nat
  trace : List Event

/-- A computation that may change the world and may end in an exception. -/
def Eff (α : Type) : Type := World → Except String α × World

/-- Return a value. -/
def Eff.pure {α : Type} (a : α) : Eff α := fun w => (Except.ok a, w)

/-- Sequence two computations; an exception skips the second. -/
def Eff.bind {α β : Type} (m : Eff α) (f : α → Eff β) : Eff β := fun w =>
  match m w with
  | (Except.ok a, w1) => f a w1
  | (Except.error e, w1) => (Except.error e, w1)

/-- `try { m } catch (error) { handler(error) }`. -/
def Eff.tryCatch {α : Type} (m : Eff α) (handler : String → Eff α) : Eff α := fun w =>
  match m w with
  | (Except.ok a, w1) => (Except.ok a, w1)
  | (Except.error e, w1) => handler e w1

instance : Monad Eff where
  pure := Eff.pure
  bind := Eff.bind

/-- `Date.now()`. -/
def dateNow (o : Oracle) : Eff Int := fun w =>
  (Except.ok (o.now w.tick), { w with tick := w.tick + 1 })

/-- The `fetch(webhookUrl, { method: "POST", ... })` of `sendSlackAlert` together with the
`response.ok` test: raises when the post fails. -/
def postWebhook (o : Oracle) (webhookUrl text : String) : Eff Unit := fun w =>
  let w1 := { w with tick := w.tick + 1, trace := w.trace ++ [Event.post webhookUrl text] }
  if o.postOk w.tick then (Except.ok (), w1) else (Except.error "Slack API error", w1)

/-- `sendSlackAlert(webhookUrl, message)`. -/
def sendSlackAlert (o : Oracle) (webhookUrl message : String) : Eff Bool :=
  Eff.tryCatch (do postWebhook o webhookUrl message; pure true) (fun _ => pure false)

/-- The `for (const downMsg of downMessages) { if (downMsg) await sendSlackAlert(...) }`
loop. -/
def sendDownMessages (o : Oracle) (webhookUrl : String) : List String → Eff Unit
  | [] => pure ()
  | downMsg :: rest => do
    if downMsg ≠ "" then
      let _ ← sendSlackAlert o webhookUrl downMsg
    sendDownMessages o webhookUrl rest

/-- The read of the ConfigMap entry or state file inside `getState`: raises when the
backend cannot be read or its content cannot be parsed. -/
def backendRead (o : Oracle) (key : String) : Eff (Option ThrottleState) := fun w =>
  let w1 := { w with tick := w.tick + 1, trace := w.trace ++ [Event.read key] }
  if o.readOk w.tick then (Except.ok (w.store key), w1) else (Except.error "read failed", w1)

/-- The `kubectl patch` or `writeFileSync` inside `updateState`: raises when it fails, and
then leaves the stored record as it was. -/
def backendWrite (o : Oracle) (key : String) (value : ThrottleState) : Eff Unit := fun w =>
  let w1 := { w with tick := w.tick + 1, trace := w.trace ++ [Event.write key value] }
  if o.writeOk w.tick then
    (Except.ok (), { w1 with store := fun k => if k = key then some value else w.store k })
  else (Except.error "write failed", w1)

/-- `getState(key)`. -/
def getState (o : Oracle) (key : String) : Eff (Option ThrottleState) :=
  Eff.tryCatch (backendRead o key) (fun _ => pure none)

/-- `updateState(key, value)`. -/
def updateState (o : Oracle) (key : String) (value : ThrottleState) : Eff Unit :=
  Eff.tryCatch (backendWrite o key value) (fun _ => pure ())

/-- Whether an event is a read or a write of the throttle record stored under `key`. -/
def Event.isStateOp (key : String) : Event → Bool
  | Event.post _ _ => false
  | Event.read k => k == key
  | Event.write k _ => k == key

/-- The reads and writes of the record stored under `key`, in the order they were made. -/
def stateOps (key : String) (trace : List Event) : List Event :=
  trace.filter (Event.isStateOp key)

/-- The values written under `key`, in the order they were written. -/
def writesTo (key : String) (trace : List Event) : List ThrottleState :=
  trace.filterMap (fun e =>
    match e with
    | Event.write k v => if k = key then some v else none
    | _ => none)

/-- The webhook posts of a trace, as pairs of destination and text, in the order they
were made. -/
def postsOf (trace : List Event) : List (String × String) :=
  trace.filterMap (fun e =>
    match e with
    | Event.post webhookUrl text => some (webhookUrl, text)
    | _ => none)

/-- The outside world `o` with the outcomes of the webhook posts replaced. -/
def withPostOutcomes (o : Oracle) (postOk : Nat → Bool) : Oracle :=
  { o with postOk := postOk }

/-- Following the spec: the dispatches of one environment that is notified, the summary
first, then one message for each chunk of the down monitors, by increasing chunk index. -/
def expectedPosts (h : JsHost) (webhookUrl environment : String) (bucket : List Monitor) :
    List (String × String) :=
  (webhookUrl, (createEnvironmentStatusMessage h bucket environment true).message) ::
    ((chunks (createEnvironmentStatusMessage h bucket environment true).downMonitors 15).enum).map
      (fun p => (webhookUrl, chunkHeader p.1 ++ String.join (p.2.map renderMonitor)))

/-- The boolean a computation returned, `false` when it raised. -/
def returnedTrue : Except String Bool → Bool
  | Except.ok b => b
  | Except.error _ => false

/-- A host that leaves non-ASCII characters alone and prints every percentage as `100.0`;
used for concrete runs. -/
def asciiHost : JsHost :=
  { lower := fun c => [c], upper := fun c => [c], percent := fun _ _ => "100.0" }

/-- An outside world in which every operation succeeds and the clock reads `t`. -/
def steadyOracle (t : Int) : Oracle :=
  { now := fun _ => t, postOk := fun _ => true, readOk := fun _ => true,
    writeOk := fun _ => true }

/-- An outside world in which every webhook post fails, the backend works and the clock
reads `t`. -/
def deafOracle (t : Int) : Oracle :=
  { now := fun _ => t, postOk := fun _ => false, readOk := fun _ => true,
    writeOk := fun _ => true }

/-- An outside world in which the state backend fails on every read and write. -/
def brokenBackendOracle (t : Int) : Oracle :=
  { now := fun _ => t, postOk := fun _ => true, readOk := fun _ => false,
    writeOk := fun _ => false }

/-- A world in which `key` holds a record with the given time and nothing was done yet. -/
def worldWith (key : String) (t : Int) : World :=
  { store := fun k => if k = key then some { lastNotificationTime := t } else none
    tick := 0, trace := [] }

/-- A monitor of the production API that is down; used for concrete runs. -/
def downMonitor : Monitor :=
  { id := "42"
    attributes :=
      { url := "https://api.mobula.io/health", pronounceable_name := some "API"
        status := "down" } }

/-- A monitor of the production API that is up; used for concrete runs. -/
def upMonitor : Monitor :=
  { id := "43"
    attributes :=
      { url := "https://API.mobula.io/status", pronounceable_name := none
        status := "up" } }

/-- A staging monitor with a status outside the four the summary shows; used for concrete
buckets. -/
def pendingMonitor : Monitor :=
  { id := "44"
    attributes :=
      { url := "https://api.zobula.xyz/health", pronounceable_name := some "Staging API"
        status := "pending" } }

/-- A production monitor whose status reads `__proto__`; used for concrete buckets. -/
def protoStatusMonitor : Monitor :=
  { id := "47"
    attributes :=
      { url := "https://api.mobula.io/v1", pronounceable_name := some "API v1"
        status := "__proto__" } }

/-- A production monitor whose status reads `constructor`; used for concrete buckets. -/
def constructorStatusMonitor : Monitor :=
  { id := "48"
    attributes :=
      { url := "https://api.mobula.io/v2", pronounceable_name := some "API v2"
        status := "constructor" } }

/-- A staging monitor that is down, with no name and a URL without scheme; used for
concrete messages. -/
def stagingDownMonitor : Monitor :=
  { id := "49"
    attributes :=
      { url := "api.zobula.xyz/health", pronounceable_name := none, status := "down" } }

/-- An explorer monitor that is down, with an empty name and an `http` URL; used for
concrete messages. -/
def explorerDownMonitor : Monitor :=
  { id := "50"
    attributes :=
      { url := "http://explorer-preprod-api.mobula.io", pronounceable_name := some ""
        status := "down" } }

/-- A monitor whose URL has no scheme and 95 characters; used for concrete messages. -/
def bareHostMonitor : Monitor :=
  { id := "45"
    attributes :=
      { url := String.mk (List.replicate 81 'a') ++ ".api.mobula.io"
        pronounceable_name := some "Ping", status := "down" } }

/-- A host that leaves non-ASCII characters alone and prints every percentage as `0.0`;
used for concrete buckets without a monitor that is up. -/
def zeroHost : JsHost :=
  { lower := fun c => [c], upper := fun c => [c], percent := fun _ _ => "0.0" }

/-- A monitor of the second explorer API; used for concrete buckets. -/
def explorer2Monitor : Monitor :=
  { id := "46"
    attributes :=
      { url := "https://explorer-api-2.mobula.io/health", pronounceable_name := some "Explorer 2"
        status := "up" } }

/-- A world with nothing stored and nothing done yet. -/
def emptyWorld : World := { store := fun _ => none, tick := 0, trace := [] }

namespace AlertSummary

/-- `NO_ALERT_NOTIFICATION_INTERVAL = 24 * 60 * 60 * 1000`. -/
def NO_ALERT_NOTIFICATION_INTERVAL : Int := 24 * 60 * 60 * 1000

/-- `shouldSendNoAlertNotification(environment)`. -/
def shouldSendNoAlertNotification (o : Oracle) (environment : String) : Eff Bool :=
  Eff.tryCatch
    (do
      let state ← getState o environment
      match state with
      | none => pure true
      | some st =>
        let lastNotificationTime :=
          if st.lastNotificationTime = 0 then 0 else st.lastNotificationTime
        let now ← dateNow o
        let timeSinceLastNotification := now - lastNotificationTime
        if timeSinceLastNotification ≥ NO_ALERT_NOTIFICATION_INTERVAL then pure true
        else pure false)
    (fun _ => pure true)

/-- `updateNoAlertNotificationState(environment)`. -/
def updateNoAlertNotificationState (o : Oracle) (environment : String) : Eff Unit :=
  Eff.tryCatch
    (do
      let now ← dateNow o
      updateState o environment { lastNotificationTime := now })
    (fun _ => pure ())

/-- The webhook URLs read from the process environment. -/
structure Config where
  SLACK_WEBHOOK_URL_PRODUCTION : String
  SLACK_WEBHOOK_URL_STAGING : String

/-- The block of `checkSystemStatus` that handles one environment; the script has it twice,
for `production` (lines 335-367) and for `staging` (lines 369-403), with the same text up
to the names. -/
def notifyEnvironment (h : JsHost) (o : Oracle) (webhookUrl environment : String)
    (bucket : List Monitor) : Eff Unit := do
  let status := createEnvironmentStatusMessage h bucket environment true
  let hasAlerts : Bool := decide (status.downMonitors.length > 0)
  let shouldSendNotification ←
    if !hasAlerts then shouldSendNoAlertNotification o environment else pure true
  if shouldSendNotification then
    let _ ← sendSlackAlert o webhookUrl status.message
    if hasAlerts then
      sendDownMessages o webhookUrl (createDownMonitorsMessage status.downMonitors 15)
    else
      updateNoAlertNotificationState o environment

/-- `checkSystemStatus()` of the two-environment script. -/
def checkSystemStatus (h : JsHost) (cfg : Config) (o : Oracle) (pages : List PageResponse) :
    Eff Unit :=
  Eff.tryCatch
    (do
      let monitors := fetchAllMonitors pages
      let categorized := categorizeMonitors h monitors
      notifyEnvironment h o cfg.SLACK_WEBHOOK_URL_PRODUCTION "production"
        categorized.production
      notifyEnvironment h o cfg.SLACK_WEBHOOK_URL_STAGING "staging" categorized.staging)
    (fun error => do
      let _ ← sendSlackAlert o cfg.SLACK_WEBHOOK_URL_PRODUCTION
        (":x: *Monitor System Error*\nFailed to check system status: " ++ error)
      pure ())

/-- Webhook URLs for concrete runs. -/
def sampleConfig : Config :=
  { SLACK_WEBHOOK_URL_PRODUCTION := "https://hooks.example/production"
    SLACK_WEBHOOK_URL_STAGING := "https://hooks.example/staging" }

/-- The two environments `checkSystemStatus` handles, in the order it handles them. -/
inductive Environment where
  | production
  | staging
deriving DecidableEq

/-- The name passed to `createEnvironmentStatusMessage` and used as the state key. -/
def Environment.key : Environment → String
  | Environment.production => "production"
  | Environment.staging => "staging"

/-- The webhook the messages of the environment are posted to. -/
def Environment.webhook (cfg : Config) : Environment → String
  | Environment.production => cfg.SLACK_WEBHOOK_URL_PRODUCTION
  | Environment.staging => cfg.SLACK_WEBHOOK_URL_STAGING

/-- The bucket of the environment. -/
def Environment.bucket (categorized : Categories) : Environment → List Monitor
  | Environment.production => categorized.production
  | Environment.staging => categorized.staging

/-- The bucket of the environment in a run that fetches `pages`. -/
def bucketInRun (h : JsHost) (pages : List PageResponse) (env : Environment) : List Monitor :=
  env.bucket (categorizeMonitors h (fetchAllMonitors pages))

/-- The world in which `checkSystemStatus`, started in `w`, begins to process the
environment: `w` itself for `production`, the world left by the production block for
`staging`. -/
def worldBefore (h : JsHost) (cfg : Config) (o : Oracle) (pages : List PageResponse)
    (w : World) : Environment → World
  | Environment.production => w
  | Environment.staging =>
    (notifyEnvironment h o cfg.SLACK_WEBHOOK_URL_PRODUCTION "production"
      (bucketInRun h pages Environment.production) w).2

/-- The world in which `checkSystemStatus`, started in `w`, has just processed the
environment. -/
def worldAfter (h : JsHost) (cfg : Config) (o : Oracle) (pages : List PageResponse)
    (w : World) (env : Environment) : World :=
  (notifyEnvironment h o (env.webhook cfg) env.key (bucketInRun h pages env)
    (worldBefore h cfg o pages w env)).2

/-- The external operations made while the environment is processed. -/
def eventsOf (h : JsHost) (cfg : Config) (o : Oracle) (pages : List PageResponse)
    (w : World) (env : Environment) : List Event :=
  (worldAfter h cfg o pages w env).trace.drop (worldBefore h cfg o pages w env).trace.length

/-- Whether `checkSystemStatus` posts for the environment at all: its bucket has a down
monitor, or `shouldSendNoAlertNotification` returns `true`. -/
def notifies (h : JsHost) (cfg : Config) (o : Oracle) (pages : List PageResponse)
    (w : World) (env : Environment) : Bool :=
  !(createEnvironmentStatusMessage h (bucketInRun h pages env) env.key true).downMonitors.isEmpty
    || returnedTrue (shouldSendNoAlertNotification o env.key (worldBefore h cfg o pages w env)).1

end AlertSummary

namespace Slack

/-- The block of `checkSystemStatus` that handles one environment (three times in the
script): the summary is always posted, then the down-monitor messages. -/
def notifyEnvironment (h : JsHost) (o : Oracle) (webhookUrl environment : String)
    (bucket : List Monitor) : Eff Unit := do
  let status := createEnvironmentStatusMessage h bucket environment true
  let _ ← sendSlackAlert o webhookUrl status.message
  if status.downMonitors.length > 0 then
    sendDownMessages o webhookUrl (createDownMonitorsMessage status.downMonitors 15)

/-- `checkSystemStatus()` of the three-environment script. -/
def checkSystemStatus (h : JsHost) (cfg : AlertSummary.Config) (o : Oracle)
    (pages : List PageResponse) : Eff Unit :=
  Eff.tryCatch
    (do
      let monitors := fetchAllMonitors pages
      let categorized := categorizeMonitors h monitors
      notifyEnvironment h o cfg.SLACK_WEBHOOK_URL_PRODUCTION "production"
        categorized.production
      notifyEnvironment h o cfg.SLACK_WEBHOOK_URL_STAGING "staging" categorized.staging
      notifyEnvironment h o cfg.SLACK_WEBHOOK_URL_STAGING "explorer-preprod"
        categorized.explorerPreprod)
    (fun error => do
      let _ ← sendSlackAlert o cfg.SLACK_WEBHOOK_URL_PRODUCTION
        (":x: *Monitor System Error*\nFailed to check system status: " ++ error)
      pure ())

end Slack


/-! ## Running effects -/

@[simp] theorem run_pure {α : Type} (a : α) (w : World) :
    (pure a : Eff α) w = (Except.ok a, w) := rfl

@[simp] theorem run_bind {α β : Type} (m : Eff α) (f : α → Eff β) (w : World) :
    (m >>= f) w =
      match m w with
      | (Except.ok a, w1) => f a w1
      | (Except.error e, w1) => (Except.error e, w1) := rfl

theorem sendSlackAlert_run (o : Oracle) (webhookUrl message : String) (w : World) :
    sendSlackAlert o webhookUrl message w =
      (Except.ok (o.postOk w.tick),
        { w with tick := w.tick + 1, trace := w.trace ++ [Event.post webhookUrl message] }) := by
  unfold sendSlackAlert Eff.tryCatch postWebhook
  cases hp : o.postOk w.tick <;> simp [hp]

theorem getState_run (o : Oracle) (key : String) (w : World) :
    getState o key w =
      (Except.ok (if o.readOk w.tick then w.store key else none),
        { w with tick := w.tick + 1, trace := w.trace ++ [Event.read key] }) := by
  unfold getState Eff.tryCatch backendRead
  cases hr : o.readOk w.tick <;> simp [hr]

theorem updateState_run (o : Oracle) (key : String) (value : ThrottleState) (w : World) :
    updateState o key value w =
      (Except.ok (),
        { store := if o.writeOk w.tick then (fun k => if k = key then some value else w.store k)
            else w.store
          tick := w.tick + 1
          trace := w.trace ++ [Event.write key value] }) := by
  unfold updateState Eff.tryCatch backendWrite
  cases hr : o.writeOk w.tick <;> simp [hr]

theorem sendDownMessages_run (o : Oracle) (webhookUrl : String) (downMessages : List String)
    (w : World) :
    sendDownMessages o webhookUrl downMessages w =
      (Except.ok (),
        { w with
          tick := w.tick + (downMessages.filter (fun m => m ≠ "")).length
          trace := w.trace ++
            (downMessages.filter (fun m => m ≠ "")).map (Event.post webhookUrl) }) := by
  induction downMessages generalizing w with
  | nil => simp [sendDownMessages]
  | cons m rest ih =>
    unfold sendDownMessages
    by_cases hm : m = ""
    · simp [hm, ih]
    · simp [hm, ih, sendSlackAlert_run, Nat.add_assoc, Nat.add_comm 1]

namespace AlertSummary

theorem shouldSendNoAlertNotification_run (o : Oracle) (environment : String) (w : World) :
    shouldSendNoAlertNotification o environment w =
      match (if o.readOk w.tick then w.store environment else none) with
      | none =>
        (Except.ok true,
          { w with tick := w.tick + 1, trace := w.trace ++ [Event.read environment] })
      | some st =>
        (Except.ok (decide (o.now (w.tick + 1) - st.lastNotificationTime ≥ 86400000)),
          { w with tick := w.tick + 2, trace := w.trace ++ [Event.read environment] }) := by
  unfold shouldSendNoAlertNotification Eff.tryCatch
  simp only [run_bind, getState_run]
  cases hs : (if o.readOk w.tick then w.store environment else none) with
  | none => simp
  | some st =>
    have hl : (if st.lastNotificationTime = 0 then 0 else st.lastNotificationTime)
        = st.lastNotificationTime := by
      split
      · next h0 => exact h0.symm
      · rfl
    simp only [dateNow, run_bind, NO_ALERT_NOTIFICATION_INTERVAL, hl]
    by_cases hge : (24 * 60 * 60 * 1000 : Int) ≤ o.now (w.tick + 1) - st.lastNotificationTime
    · have hge2 : (86400000 : Int) ≤ o.now (w.tick + 1) - st.lastNotificationTime := by
        norm_num at hge; exact hge
      simp [hge, hge2]
    · have hge2 : ¬ (86400000 : Int) ≤ o.now (w.tick + 1) - st.lastNotificationTime := by
        norm_num at hge; omega
      simp [hge, hge2]

theorem updateNoAlertNotificationState_run (o : Oracle) (environment : String) (w : World) :
    updateNoAlertNotificationState o environment w =
      (Except.ok (),
        { store := if o.writeOk (w.tick + 1) then
              (fun k => if k = environment then some { lastNotificationTime := o.now w.tick }
                else w.store k)
            else w.store
          tick := w.tick + 2
          trace := w.trace ++
            [Event.write environment { lastNotificationTime := o.now w.tick }] }) := by
  unfold updateNoAlertNotificationState Eff.tryCatch
  simp [dateNow, updateState_run]

/-- What the block of one environment does when its bucket has a down monitor: the summary
and the non-empty down-monitor messages are posted, nothing else happens. -/
theorem notifyEnvironment_run_alerts (h : JsHost) (o : Oracle) (webhookUrl environment : String)
    (bucket : List Monitor) (w : World)
    (hdown : (createEnvironmentStatusMessage h bucket environment true).downMonitors ≠ []) :
    notifyEnvironment h o webhookUrl environment bucket w =
      (Except.ok (),
        { w with
          tick := w.tick + 1 +
            ((createDownMonitorsMessage
              (createEnvironmentStatusMessage h bucket environment true).downMonitors 15).filter
                (fun m => m ≠ "")).length
          trace := w.trace ++
            Event.post webhookUrl (createEnvironmentStatusMessage h bucket environment true).message ::
            ((createDownMonitorsMessage
              (createEnvironmentStatusMessage h bucket environment true).downMonitors 15).filter
                (fun m => m ≠ "")).map (Event.post webhookUrl) }) := by
  have hlen : (createEnvironmentStatusMessage h bucket environment true).downMonitors.length > 0 :=
    List.length_pos.mpr hdown
  unfold notifyEnvironment
  simp [hlen, sendSlackAlert_run, sendDownMessages_run]

/-- What the block of one environment does when its bucket has no down monitor. -/
theorem notifyEnvironment_run_clear (h : JsHost) (o : Oracle) (webhookUrl environment : String)
    (bucket : List Monitor) (w : World)
    (hclear : (createEnvironmentStatusMessage h bucket environment true).downMonitors = []) :
    notifyEnvironment h o webhookUrl environment bucket w =
      (Except.ok (),
        match (shouldSendNoAlertNotification o environment w) with
        | (Except.ok true, ws) =>
          { store := if o.writeOk (ws.tick + 2) then
                (fun k => if k = environment then
                    some { lastNotificationTime := o.now (ws.tick + 1) }
                  else ws.store k)
              else ws.store
            tick := ws.tick + 3
            trace := ws.trace ++
              [Event.post webhookUrl (createEnvironmentStatusMessage h bucket environment true).message,
               Event.write environment { lastNotificationTime := o.now (ws.tick + 1) }] }
        | (_, ws) => ws) := by
  unfold notifyEnvironment
  simp only [hclear, List.length_nil, gt_iff_lt, lt_self_iff_false, decide_False, Bool.not_false,
    if_true, run_bind]
  rw [shouldSendNoAlertNotification_run]
  cases hs : (if o.readOk w.tick then w.store environment else none) with
  | none => simp [sendSlackAlert_run, updateNoAlertNotificationState_run]
  | some st =>
    by_cases hge : o.now (w.tick + 1) - st.lastNotificationTime ≥ 86400000
    · simp [hge, sendSlackAlert_run, updateNoAlertNotificationState_run]
    · simp [hge]

theorem notifyEnvironment_ok (h : JsHost) (o : Oracle) (webhookUrl environment : String)
    (bucket : List Monitor) (w : World) :
    (notifyEnvironment h o webhookUrl environment bucket w).1 = Except.ok () := by
  by_cases hd : (createEnvironmentStatusMessage h bucket environment true).downMonitors = []
  · rw [notifyEnvironment_run_clear h o webhookUrl environment bucket w hd]
  · rw [notifyEnvironment_run_alerts h o webhookUrl environment bucket w hd]

/-- The run is the production block followed by the staging block; the `catch` branch is
never taken. -/
theorem checkSystemStatus_run (h : JsHost) (cfg : Config) (o : Oracle)
    (pages : List PageResponse) (w : World) :
    checkSystemStatus h cfg o pages w =
      (Except.ok (), worldAfter h cfg o pages w Environment.staging) := by
  have h1 := notifyEnvironment_ok h o cfg.SLACK_WEBHOOK_URL_PRODUCTION "production"
    (categorizeMonitors h (fetchAllMonitors pages)).production w
  have h2 := notifyEnvironment_ok h o cfg.SLACK_WEBHOOK_URL_STAGING "staging"
    (categorizeMonitors h (fetchAllMonitors pages)).staging
    (notifyEnvironment h o cfg.SLACK_WEBHOOK_URL_PRODUCTION "production"
      (categorizeMonitors h (fetchAllMonitors pages)).production w).2
  unfold checkSystemStatus Eff.tryCatch
  simp only [run_bind, worldAfter, worldBefore, bucketInRun, Environment.bucket,
    Environment.webhook, Environment.key]
  generalize notifyEnvironment h o cfg.SLACK_WEBHOOK_URL_PRODUCTION "production"
      (categorizeMonitors h (fetchAllMonitors pages)).production w = r1 at h1 h2 ⊢
  obtain ⟨e1, w1⟩ := r1
  simp only at h1 h2 ⊢
  subst h1
  simp only
  generalize notifyEnvironment h o cfg.SLACK_WEBHOOK_URL_STAGING "staging"
      (categorizeMonitors h (fetchAllMonitors pages)).staging w1 = r2 at h2 ⊢
  obtain ⟨e2, w2⟩ := r2
  simp only at h2 ⊢
  subst h2
  rfl

/-! ## The throttle decision -/

/-- C1: `shouldSendNoAlertNotification` never raises, and it returns `true` exactly when
`getState` gave no record or the clock reading minus the recorded `lastNotificationTime`
is at least 86,400,000 ms; otherwise it returns `false`.  With a record of time `t0`, a
clock at `t0 + 24 h` is eligible and a clock at `t0 + 24 h - 1 ms` is suppressed. -/
theorem shouldSendNoAlertNotification_iff (o : Oracle) (environment : String) (w : World) :
    (∃ b, (shouldSendNoAlertNotification o environment w).1 = Except.ok b ∧
      (b = true ↔
        ((getState o environment w).1 = Except.ok none ∨
          ∃ st, (getState o environment w).1 = Except.ok (some st) ∧
            o.now (w.tick + 1) - st.lastNotificationTime ≥ 86400000))) ∧
    NO_ALERT_NOTIFICATION_INTERVAL = 86400000 ∧
    (∀ t0 : Int,
      (shouldSendNoAlertNotification (steadyOracle (t0 + 86400000)) environment
        (worldWith environment t0)).1 = Except.ok true) ∧
    (∀ t0 : Int,
      (shouldSendNoAlertNotification (steadyOracle (t0 + 86400000 - 1)) environment
        (worldWith environment t0)).1 = Except.ok false) := by
  refine ⟨?_, by decide, ?_, ?_⟩
  · rw [shouldSendNoAlertNotification_run, getState_run]
    cases hs : (if o.readOk w.tick then w.store environment else none) with
    | none => exact ⟨true, rfl, by simp⟩
    | some st =>
      refine ⟨decide (o.now (w.tick + 1) - st.lastNotificationTime ≥ 86400000), rfl, ?_⟩
      simp
  · intro t0
    rw [shouldSendNoAlertNotification_run]
    simp [steadyOracle, worldWith]
  · intro t0
    rw [shouldSendNoAlertNotification_run]
    simp only [steadyOracle, worldWith, if_true]
    have hlt : ¬ (t0 + 86400000 - 1 - t0 ≥ 86400000) := by omega
    simp [hlt]

/-- C5: the throttle fails open.  When the backend read fails, `shouldSendNoAlertNotification`
returns `true`, as it does when the backend holds no record; when the backend write fails,
`updateNoAlertNotificationState` returns normally and leaves the store as it was; and a run
of `checkSystemStatus` never ends in an exception, it goes on to the staging block. -/
theorem throttle_fails_open (h : JsHost) (cfg : Config) (pages : List PageResponse)
    (o : Oracle) (environment : String) (w w2 : World)
    (hread : o.readOk w.tick = false) (hwrite : o.writeOk (w2.tick + 1) = false) :
    (shouldSendNoAlertNotification o environment w).1 = Except.ok true ∧
    (shouldSendNoAlertNotification o environment w).1 =
      (shouldSendNoAlertNotification (steadyOracle 0) environment
        { w with store := fun _ => none }).1 ∧
    (updateNoAlertNotificationState o environment w2).1 = Except.ok () ∧
    (updateNoAlertNotificationState o environment w2).2.store = w2.store ∧
    checkSystemStatus h cfg o pages w2 =
      (Except.ok (), worldAfter h cfg o pages w2 Environment.staging) := by
  refine ⟨?_, ?_, ?_, ?_, checkSystemStatus_run h cfg o pages w2⟩
  · rw [shouldSendNoAlertNotification_run]; simp [hread]
  · rw [shouldSendNoAlertNotification_run, shouldSendNoAlertNotification_run]
    simp [hread, steadyOracle]
  · rw [updateNoAlertNotificationState_run]
  · rw [updateNoAlertNotificationState_run]; simp [hwrite]

/-- C5 at a concrete input: a backend that fails on every operation. -/
theorem throttle_fails_open_witness :
    (shouldSendNoAlertNotification (brokenBackendOracle 5) "staging"
        (worldWith "staging" 4)).1 = Except.ok true ∧
    (updateNoAlertNotificationState (brokenBackendOracle 5) "staging"
        (worldWith "staging" 4)).1 = Except.ok () :=
  have hx := throttle_fails_open asciiHost ⟨"hook-p", "hook-s"⟩ [] (brokenBackendOracle 5)
    "staging" (worldWith "staging" 4) (worldWith "staging" 4) rfl rfl
  ⟨hx.1, hx.2.2.1⟩

end AlertSummary

/-! ## Aggregation lemmas -/

theorem aggregate_foldl_downMonitors (monitors : List Monitor) (acc : Aggregate) :
    (monitors.foldl (aggregateStep true) acc).downMonitors =
      acc.downMonitors ++ monitors.filter (fun m => m.attributes.status == "down") := by
  induction monitors generalizing acc with
  | nil => simp
  | cons m rest ih =>
    rw [List.foldl_cons, ih]
    by_cases hm : m.attributes.status = "down"
    · simp [aggregateStep, hm, List.filter_cons]
    · simp [aggregateStep, hm, List.filter_cons]

theorem createEnvironmentStatusMessage_downMonitors (h : JsHost) (monitors : List Monitor)
    (environmentName : String) :
    (createEnvironmentStatusMessage h monitors environmentName true).downMonitors =
      monitors.filter (fun m => m.attributes.status == "down") := by
  simp [createEnvironmentStatusMessage, aggregate, aggregate_foldl_downMonitors]

theorem downMonitors_ne_nil (h : JsHost) (monitors : List Monitor) (environmentName : String)
    (hdown : ∃ m ∈ monitors, m.attributes.status = "down") :
    (createEnvironmentStatusMessage h monitors environmentName true).downMonitors ≠ [] := by
  obtain ⟨m, hm, hs⟩ := hdown
  rw [createEnvironmentStatusMessage_downMonitors]
  intro hnil
  have : m ∈ monitors.filter (fun m => m.attributes.status == "down") := by
    simp [List.mem_filter, hm, hs]
  rw [hnil] at this
  cases this

theorem downMonitors_eq_nil (h : JsHost) (monitors : List Monitor) (environmentName : String)
    (hclear : ∀ m ∈ monitors, m.attributes.status ≠ "down") :
    (createEnvironmentStatusMessage h monitors environmentName true).downMonitors = [] := by
  rw [createEnvironmentStatusMessage_downMonitors, List.filter_eq_nil_iff]
  intro m hm
  simpa using hclear m hm

/-! ## Trace lemmas -/

theorem stateOps_append (key : String) (xs ys : List Event) :
    stateOps key (xs ++ ys) = stateOps key xs ++ stateOps key ys := by
  simp [stateOps]

theorem writesTo_append (key : String) (xs ys : List Event) :
    writesTo key (xs ++ ys) = writesTo key xs ++ writesTo key ys := by
  simp [writesTo]

theorem stateOps_posts (key webhookUrl : String) (texts : List String) :
    stateOps key (texts.map (Event.post webhookUrl)) = [] := by
  simp [stateOps, List.filter_eq_nil_iff, Event.isStateOp]

theorem writesTo_posts (key webhookUrl : String) (texts : List String) :
    writesTo key (texts.map (Event.post webhookUrl)) = [] := by
  induction texts with
  | nil => rfl
  | cons t rest ih => simp [writesTo]

namespace AlertSummary

/-! ## The block of one environment -/

theorem notifyEnvironment_alerts (h : JsHost) (o : Oracle) (webhookUrl environment : String)
    (bucket : List Monitor) (w : World)
    (hdown : (createEnvironmentStatusMessage h bucket environment true).downMonitors ≠ []) :
    (notifyEnvironment h o webhookUrl environment bucket w).2.trace =
      w.trace ++
        Event.post webhookUrl (createEnvironmentStatusMessage h bucket environment true).message ::
        ((createDownMonitorsMessage
          (createEnvironmentStatusMessage h bucket environment true).downMonitors 15).filter
            (fun m => m ≠ "")).map (Event.post webhookUrl) ∧
    (notifyEnvironment h o webhookUrl environment bucket w).2.store = w.store := by
  rw [notifyEnvironment_run_alerts h o webhookUrl environment bucket w hdown]
  exact ⟨rfl, rfl⟩

theorem notifyEnvironment_clear (h : JsHost) (o : Oracle) (webhookUrl environment : String)
    (bucket : List Monitor) (w : World)
    (hclear : (createEnvironmentStatusMessage h bucket environment true).downMonitors = []) :
    (notifyEnvironment h o webhookUrl environment bucket w).2.trace =
      w.trace ++ Event.read environment ::
        (if returnedTrue (shouldSendNoAlertNotification o environment w).1 then
          [Event.post webhookUrl (createEnvironmentStatusMessage h bucket environment true).message,
           Event.write environment
            { lastNotificationTime :=
                o.now ((shouldSendNoAlertNotification o environment w).2.tick + 1) }]
        else []) ∧
    (notifyEnvironment h o webhookUrl environment bucket w).2.store =
      (if returnedTrue (shouldSendNoAlertNotification o environment w).1
          && o.writeOk ((shouldSendNoAlertNotification o environment w).2.tick + 2) then
        (fun k => if k = environment then
            some { lastNotificationTime :=
              o.now ((shouldSendNoAlertNotification o environment w).2.tick + 1) }
          else w.store k)
      else w.store) := by
  rw [notifyEnvironment_run_clear h o webhookUrl environment bucket w hclear,
    shouldSendNoAlertNotification_run]
  cases hs : (if o.readOk w.tick then w.store environment else none) with
  | none =>
    simp only [returnedTrue, if_true]
    cases o.writeOk (w.tick + 1 + 2) <;> simp
  | some st =>
    by_cases hge : o.now (w.tick + 1) - st.lastNotificationTime ≥ 86400000
    · simp only [hge, decide_True, returnedTrue, if_true]
      cases o.writeOk (w.tick + 2 + 2) <;> simp
    · simp [hge, returnedTrue]

theorem notifyEnvironment_frame (h : JsHost) (o : Oracle) (webhookUrl environment : String)
    (bucket : List Monitor) (w : World) (key : String) (hkey : environment ≠ key) :
    stateOps key (notifyEnvironment h o webhookUrl environment bucket w).2.trace =
      stateOps key w.trace ∧
    writesTo key (notifyEnvironment h o webhookUrl environment bucket w).2.trace =
      writesTo key w.trace ∧
    (notifyEnvironment h o webhookUrl environment bucket w).2.store key = w.store key := by
  have hkey2 : ¬ key = environment := fun e => hkey e.symm
  by_cases hd : (createEnvironmentStatusMessage h bucket environment true).downMonitors = []
  · obtain ⟨ht, hs⟩ := notifyEnvironment_clear h o webhookUrl environment bucket w hd
    rw [ht, hs]
    refine ⟨?_, ?_, ?_⟩
    · rw [stateOps_append]
      cases returnedTrue (shouldSendNoAlertNotification o environment w).1 <;>
        simp [stateOps, Event.isStateOp, hkey]
    · rw [writesTo_append]
      cases returnedTrue (shouldSendNoAlertNotification o environment w).1 <;>
        simp [writesTo, hkey]
    · split <;> simp [hkey2]
  · obtain ⟨ht, hs⟩ := notifyEnvironment_alerts h o webhookUrl environment bucket w hd
    rw [ht, hs]
    refine ⟨?_, ?_, rfl⟩
    · rw [stateOps_append, ← List.map_cons, stateOps_posts, List.append_nil]
    · rw [writesTo_append, ← List.map_cons, writesTo_posts, List.append_nil]

theorem notifyEnvironment_trace_extends (h : JsHost) (o : Oracle)
    (webhookUrl environment : String) (bucket : List Monitor) (w : World) :
    (notifyEnvironment h o webhookUrl environment bucket w).2.trace =
      w.trace ++ (notifyEnvironment h o webhookUrl environment bucket w).2.trace.drop
        w.trace.length := by
  by_cases hd : (createEnvironmentStatusMessage h bucket environment true).downMonitors = []
  · rw [(notifyEnvironment_clear h o webhookUrl environment bucket w hd).1]; simp
  · rw [(notifyEnvironment_alerts h o webhookUrl environment bucket w hd).1]; simp


/-- The events of the run are those before it, then those of the production block, then
those of the staging block. -/
theorem worldAfter_trace (h : JsHost) (cfg : Config) (o : Oracle) (pages : List PageResponse)
    (w : World) (env : Environment) :
    (worldAfter h cfg o pages w env).trace =
      (worldBefore h cfg o pages w env).trace ++ eventsOf h cfg o pages w env := by
  unfold eventsOf worldAfter
  exact notifyEnvironment_trace_extends h o _ _ _ _

theorem eventsOf_eq (h : JsHost) (cfg : Config) (o : Oracle) (pages : List PageResponse)
    (w : World) (env : Environment) (new : List Event)
    (ht : (notifyEnvironment h o (env.webhook cfg) env.key (bucketInRun h pages env)
      (worldBefore h cfg o pages w env)).2.trace =
        (worldBefore h cfg o pages w env).trace ++ new) :
    eventsOf h cfg o pages w env = new := by
  unfold eventsOf worldAfter
  rw [ht, List.drop_left]

/-- What the whole run does to the record of one environment is what the block of that
environment does to it. -/
theorem run_frame (h : JsHost) (cfg : Config) (o : Oracle) (pages : List PageResponse)
    (w : World) (env : Environment) :
    (worldBefore h cfg o pages w env).store env.key = w.store env.key ∧
    stateOps env.key (worldBefore h cfg o pages w env).trace = stateOps env.key w.trace ∧
    writesTo env.key (worldBefore h cfg o pages w env).trace = writesTo env.key w.trace ∧
    (checkSystemStatus h cfg o pages w).2.store env.key =
      (worldAfter h cfg o pages w env).store env.key ∧
    stateOps env.key (checkSystemStatus h cfg o pages w).2.trace =
      stateOps env.key (worldAfter h cfg o pages w env).trace ∧
    writesTo env.key (checkSystemStatus h cfg o pages w).2.trace =
      writesTo env.key (worldAfter h cfg o pages w env).trace := by
  rw [checkSystemStatus_run]
  cases env with
  | production =>
    refine ⟨rfl, rfl, rfl, ?_, ?_, ?_⟩
    · exact (notifyEnvironment_frame h o cfg.SLACK_WEBHOOK_URL_STAGING "staging" _
        _ "production" (by decide)).2.2
    · exact (notifyEnvironment_frame h o cfg.SLACK_WEBHOOK_URL_STAGING "staging" _
        _ "production" (by decide)).1
    · exact (notifyEnvironment_frame h o cfg.SLACK_WEBHOOK_URL_STAGING "staging" _
        _ "production" (by decide)).2.1
  | staging =>
    refine ⟨?_, ?_, ?_, rfl, rfl, rfl⟩
    · exact (notifyEnvironment_frame h o cfg.SLACK_WEBHOOK_URL_PRODUCTION "production" _
        _ "staging" (by decide)).2.2
    · exact (notifyEnvironment_frame h o cfg.SLACK_WEBHOOK_URL_PRODUCTION "production" _
        _ "staging" (by decide)).1
    · exact (notifyEnvironment_frame h o cfg.SLACK_WEBHOOK_URL_PRODUCTION "production" _
        _ "staging" (by decide)).2.1

/-! ## Alerts bypass the throttle -/

/-- C2: in a run of `checkSystemStatus`, for an environment whose bucket holds a monitor
with status `down`, whatever the store holds: the operations made while the environment is
processed are the post of the summary followed by the posts of the down-monitor messages,
the store after processing the environment equals the store before, and in the whole run
the record of that environment is neither read nor written and keeps its value. -/
theorem alerts_bypass_throttle (h : JsHost) (cfg : Config) (o : Oracle)
    (pages : List PageResponse) (w : World) (env : Environment)
    (hdown : ∃ m ∈ bucketInRun h pages env, m.attributes.status = "down") :
    eventsOf h cfg o pages w env =
      Event.post (env.webhook cfg)
        (createEnvironmentStatusMessage h (bucketInRun h pages env) env.key true).message ::
      ((createDownMonitorsMessage
        (createEnvironmentStatusMessage h (bucketInRun h pages env) env.key true).downMonitors
          15).filter (fun m => m ≠ "")).map (Event.post (env.webhook cfg)) ∧
    (worldAfter h cfg o pages w env).store = (worldBefore h cfg o pages w env).store ∧
    stateOps env.key (checkSystemStatus h cfg o pages w).2.trace = stateOps env.key w.trace ∧
    (checkSystemStatus h cfg o pages w).2.store env.key = w.store env.key := by
  have hne := downMonitors_ne_nil h (bucketInRun h pages env) env.key hdown
  obtain ⟨ht, hs⟩ := notifyEnvironment_alerts h o (env.webhook cfg) env.key
    (bucketInRun h pages env) (worldBefore h cfg o pages w env) hne
  obtain ⟨f1, f2, _, f4, f5, _⟩ := run_frame h cfg o pages w env
  have hev := eventsOf_eq h cfg o pages w env _ ht
  refine ⟨hev, hs, ?_, ?_⟩
  · rw [f5, worldAfter_trace, hev, stateOps_append, ← List.map_cons, stateOps_posts,
      List.append_nil, f2]
  · rw [f4]
    unfold worldAfter
    rw [hs, f1]


/-- C2 at a concrete input: one production monitor that is down, a record already stored
for production. -/
theorem alerts_bypass_throttle_witness :
    stateOps "production"
      (checkSystemStatus asciiHost sampleConfig (steadyOracle 5)
        [PageResponse.page [downMonitor] false] (worldWith "production" 1)).2.trace = [] ∧
    (checkSystemStatus asciiHost sampleConfig (steadyOracle 5)
        [PageResponse.page [downMonitor] false] (worldWith "production" 1)).2.store "production"
      = some { lastNotificationTime := 1 } :=
  have hx := alerts_bypass_throttle asciiHost sampleConfig (steadyOracle 5)
    [PageResponse.page [downMonitor] false] (worldWith "production" 1) Environment.production
    ⟨downMonitor, by decide, rfl⟩
  ⟨hx.2.2.1, hx.2.2.2⟩

/-! ## When the throttle record is written -/

/-- In a run of `checkSystemStatus`, for each environment and every outcome of the posts,
reads and writes, the writes of the record of the environment made in the run are those
made while the environment is processed, and there is exactly one, of the clock reading
taken after the summary post, when the environment has no down monitor and
`shouldSendNoAlertNotification` returned `true` (the summary post was then attempted,
whether or not it succeeded), and none otherwise. -/
theorem state_written_iff_all_clear_attempted (h : JsHost) (cfg : Config) (o : Oracle)
    (pages : List PageResponse) (w : World) (env : Environment) :
    writesTo env.key (checkSystemStatus h cfg o pages w).2.trace =
      writesTo env.key w.trace ++ writesTo env.key (eventsOf h cfg o pages w env) ∧
    writesTo env.key (eventsOf h cfg o pages w env) =
      (if (createEnvironmentStatusMessage h (bucketInRun h pages env) env.key
            true).downMonitors.isEmpty
          && returnedTrue (shouldSendNoAlertNotification o env.key
            (worldBefore h cfg o pages w env)).1 then
        [{ lastNotificationTime :=
            o.now ((shouldSendNoAlertNotification o env.key
              (worldBefore h cfg o pages w env)).2.tick + 1) }]
      else []) := by
  obtain ⟨_, _, f3, _, _, f6⟩ := run_frame h cfg o pages w env
  refine ⟨?_, ?_⟩
  · rw [f6, worldAfter_trace, writesTo_append, f3]
  · by_cases hd : (createEnvironmentStatusMessage h (bucketInRun h pages env) env.key
        true).downMonitors = []
    · have ht := (notifyEnvironment_clear h o (env.webhook cfg) env.key
        (bucketInRun h pages env) (worldBefore h cfg o pages w env) hd).1
      rw [eventsOf_eq h cfg o pages w env _ ht, hd]
      cases returnedTrue (shouldSendNoAlertNotification o env.key
          (worldBefore h cfg o pages w env)).1 <;> simp [writesTo]
    · have ht := (notifyEnvironment_alerts h o (env.webhook cfg) env.key
        (bucketInRun h pages env) (worldBefore h cfg o pages w env) hd).1
      rw [eventsOf_eq h cfg o pages w env _ ht, ← List.map_cons, writesTo_posts]
      have hne : (createEnvironmentStatusMessage h (bucketInRun h pages env) env.key
          true).downMonitors.isEmpty = false := by
        simpa [List.isEmpty_iff] using hd
      simp [hne]

/-- C3, the code when the post of the "all clear" summary fails.  First run: the API
answers with an empty page, nothing is stored, the webhook rejects every post and the
clock reads 7; `sendSlackAlert` returns `false` for the production summary, yet the run
writes the production record with time 7 right after the failed post.  Second run, one
hour later (the clock reads 3600007) with a working webhook, started in the world the first
run left: the records are read, found less than 24 h old, and nothing is posted, so no
"all clear" summary reaches the webhook in either run. -/
theorem state_written_though_post_failed :
    (sendSlackAlert (deafOracle 7) sampleConfig.SLACK_WEBHOOK_URL_PRODUCTION
      (createEnvironmentStatusMessage asciiHost [] "production" true).message
      (shouldSendNoAlertNotification (deafOracle 7) "production" emptyWorld).2).1
        = Except.ok false ∧
    eventsOf asciiHost sampleConfig (deafOracle 7) [PageResponse.page [] false] emptyWorld
        Environment.production =
      [Event.read "production",
       Event.post sampleConfig.SLACK_WEBHOOK_URL_PRODUCTION
        (createEnvironmentStatusMessage asciiHost [] "production" true).message,
       Event.write "production" { lastNotificationTime := 7 }] ∧
    writesTo "production"
      (checkSystemStatus asciiHost sampleConfig (deafOracle 7) [PageResponse.page [] false]
        emptyWorld).2.trace = [{ lastNotificationTime := 7 }] ∧
    (checkSystemStatus asciiHost sampleConfig (deafOracle 7) [PageResponse.page [] false]
        emptyWorld).2.store "production" = some { lastNotificationTime := 7 } ∧
    eventsOf asciiHost sampleConfig (steadyOracle 3600007) [PageResponse.page [] false]
        (checkSystemStatus asciiHost sampleConfig (deafOracle 7) [PageResponse.page [] false]
          emptyWorld).2 Environment.production = [Event.read "production"] ∧
    (checkSystemStatus asciiHost sampleConfig (steadyOracle 3600007)
        [PageResponse.page [] false]
        (checkSystemStatus asciiHost sampleConfig (deafOracle 7) [PageResponse.page [] false]
          emptyWorld).2).2.trace =
      (checkSystemStatus asciiHost sampleConfig (deafOracle 7) [PageResponse.page [] false]
          emptyWorld).2.trace ++ [Event.read "production", Event.read "staging"] ∧
    (checkSystemStatus asciiHost sampleConfig (steadyOracle 3600007)
        [PageResponse.page [] false]
        (checkSystemStatus asciiHost sampleConfig (deafOracle 7) [PageResponse.page [] false]
          emptyWorld).2).2.store "production" = some { lastNotificationTime := 7 } := by
  refine ⟨by rw [sendSlackAlert_run]; rfl, ?_, ?_, ?_, ?_, ?_, ?_⟩
  · rfl
  · decide
  · decide
  · rfl
  · rfl
  · decide

/-! ## Throttle over consecutive runs -/

/-- A run with a working backend and a clock reading `t` throughout, for an environment
without down monitors whose record is absent or at least 24 h old: the summary is posted
and the record becomes `t`. -/
theorem run_all_clear_sends (h : JsHost) (cfg : Config) (o : Oracle)
    (pages : List PageResponse) (w : World) (env : Environment) (t : Int)
    (hr : ∀ n, o.readOk n = true) (hw : ∀ n, o.writeOk n = true) (hc : ∀ n, o.now n = t)
    (hz : ∀ m ∈ bucketInRun h pages env, m.attributes.status ≠ "down")
    (hel : w.store env.key = none ∨
      ∃ st, w.store env.key = some st ∧ t - st.lastNotificationTime ≥ 86400000) :
    eventsOf h cfg o pages w env =
      [Event.read env.key,
       Event.post (env.webhook cfg)
        (createEnvironmentStatusMessage h (bucketInRun h pages env) env.key true).message,
       Event.write env.key { lastNotificationTime := t }] ∧
    (checkSystemStatus h cfg o pages w).2.store env.key = some { lastNotificationTime := t } := by
  have hd := downMonitors_eq_nil h (bucketInRun h pages env) env.key hz
  obtain ⟨f1, _, _, f4, _, _⟩ := run_frame h cfg o pages w env
  obtain ⟨ht, hs⟩ := notifyEnvironment_clear h o (env.webhook cfg) env.key
    (bucketInRun h pages env) (worldBefore h cfg o pages w env) hd
  have hsend : returnedTrue (shouldSendNoAlertNotification o env.key
      (worldBefore h cfg o pages w env)).1 = true := by
    rw [shouldSendNoAlertNotification_run, hr, if_pos rfl, f1]
    rcases hel with hnone | ⟨st, hst, hge⟩
    · rw [hnone]; rfl
    · rw [hst]; simp [returnedTrue, hc, hge]
  rw [hsend, hc] at ht
  rw [hsend, hw, hc] at hs
  refine ⟨eventsOf_eq h cfg o pages w env _ ht, ?_⟩
  rw [f4]
  unfold worldAfter
  rw [hs]
  simp

/-- A run with a working backend and a clock reading `t` throughout, for an environment
without down monitors whose record is less than 24 h old: only the record is read. -/
theorem run_all_clear_suppressed (h : JsHost) (cfg : Config) (o : Oracle)
    (pages : List PageResponse) (w : World) (env : Environment) (t : Int)
    (hr : ∀ n, o.readOk n = true) (hc : ∀ n, o.now n = t)
    (hz : ∀ m ∈ bucketInRun h pages env, m.attributes.status ≠ "down")
    (st : ThrottleState) (hst : w.store env.key = some st)
    (hlt : t - st.lastNotificationTime < 86400000) :
    eventsOf h cfg o pages w env = [Event.read env.key] ∧
    (checkSystemStatus h cfg o pages w).2.store env.key = w.store env.key := by
  have hd := downMonitors_eq_nil h (bucketInRun h pages env) env.key hz
  obtain ⟨f1, _, _, f4, _, _⟩ := run_frame h cfg o pages w env
  obtain ⟨ht, hs⟩ := notifyEnvironment_clear h o (env.webhook cfg) env.key
    (bucketInRun h pages env) (worldBefore h cfg o pages w env) hd
  have hsend : returnedTrue (shouldSendNoAlertNotification o env.key
      (worldBefore h cfg o pages w env)).1 = false := by
    rw [shouldSendNoAlertNotification_run, hr, if_pos rfl, f1, hst]
    have hnot : ¬ (t - st.lastNotificationTime ≥ 86400000) := by omega
    simp [returnedTrue, hc, hnot]
  rw [hsend] at ht hs
  refine ⟨eventsOf_eq h cfg o pages w env _ ht, ?_⟩
  rw [f4]
  unfold worldAfter
  rw [hs]
  simpa using f1

/-- C4: three consecutive runs of `checkSystemStatus`, each with a working backend and a
clock that reads `t0`, `t1`, `t2` throughout the run, for an environment that has no down
monitor in any of them and no record at the start.  The first run posts the summary and
stores `t0`; the second, with `t0 <= t1 < t0 + 24 h`, only reads the record, posts nothing
for the environment and leaves the record as it is; the third, with `t2 >= t0 + 24 h`,
posts the summary again and stores `t2`. -/
theorem throttle_idempotence (h : JsHost) (cfg : Config) (env : Environment)
    (o0 o1 o2 : Oracle) (p0 p1 p2 : List PageResponse) (w : World) (t0 t1 t2 : Int)
    (hr0 : ∀ n, o0.readOk n = true) (hw0 : ∀ n, o0.writeOk n = true)
    (hc0 : ∀ n, o0.now n = t0)
    (hr1 : ∀ n, o1.readOk n = true) (hc1 : ∀ n, o1.now n = t1)
    (hr2 : ∀ n, o2.readOk n = true) (hw2 : ∀ n, o2.writeOk n = true)
    (hc2 : ∀ n, o2.now n = t2)
    (hz0 : ∀ m ∈ bucketInRun h p0 env, m.attributes.status ≠ "down")
    (hz1 : ∀ m ∈ bucketInRun h p1 env, m.attributes.status ≠ "down")
    (hz2 : ∀ m ∈ bucketInRun h p2 env, m.attributes.status ≠ "down")
    (hnone : w.store env.key = none)
    (h01 : t0 ≤ t1) (h1 : t1 < t0 + 86400000) (h2 : t2 ≥ t0 + 86400000) :
    eventsOf h cfg o0 p0 w env =
      [Event.read env.key,
       Event.post (env.webhook cfg)
        (createEnvironmentStatusMessage h (bucketInRun h p0 env) env.key true).message,
       Event.write env.key { lastNotificationTime := t0 }] ∧
    (checkSystemStatus h cfg o0 p0 w).2.store env.key = some { lastNotificationTime := t0 } ∧
    eventsOf h cfg o1 p1 (checkSystemStatus h cfg o0 p0 w).2 env = [Event.read env.key] ∧
    (checkSystemStatus h cfg o1 p1 (checkSystemStatus h cfg o0 p0 w).2).2.store env.key =
      some { lastNotificationTime := t0 } ∧
    eventsOf h cfg o2 p2
        (checkSystemStatus h cfg o1 p1 (checkSystemStatus h cfg o0 p0 w).2).2 env =
      [Event.read env.key,
       Event.post (env.webhook cfg)
        (createEnvironmentStatusMessage h (bucketInRun h p2 env) env.key true).message,
       Event.write env.key { lastNotificationTime := t2 }] ∧
    (checkSystemStatus h cfg o2 p2
        (checkSystemStatus h cfg o1 p1 (checkSystemStatus h cfg o0 p0 w).2).2).2.store env.key =
      some { lastNotificationTime := t2 } := by
  obtain ⟨e0, s0⟩ := run_all_clear_sends h cfg o0 p0 w env t0 hr0 hw0 hc0 hz0 (Or.inl hnone)
  obtain ⟨e1, s1⟩ := run_all_clear_suppressed h cfg o1 p1 (checkSystemStatus h cfg o0 p0 w).2
    env t1 hr1 hc1 hz1 { lastNotificationTime := t0 } s0 (by simp only; omega)
  rw [s0] at s1
  obtain ⟨e2, s2⟩ := run_all_clear_sends h cfg o2 p2
    (checkSystemStatus h cfg o1 p1 (checkSystemStatus h cfg o0 p0 w).2).2 env t2 hr2 hw2 hc2 hz2
    (Or.inr ⟨{ lastNotificationTime := t0 }, s1, by simp only; omega⟩)
  exact ⟨e0, s0, e1, s1, e2, s2⟩

/-- C4 at a concrete input: three runs that fetch one production monitor that is up, for
the staging environment, at 1,000 ms, 2,000 ms and 86,401,000 ms. -/
theorem throttle_idempotence_witness :
    (checkSystemStatus asciiHost sampleConfig (steadyOracle 1000)
      [PageResponse.page [upMonitor] false] emptyWorld).2.store "staging"
        = some { lastNotificationTime := 1000 } ∧
    eventsOf asciiHost sampleConfig (steadyOracle 2000) [PageResponse.page [upMonitor] false]
      (checkSystemStatus asciiHost sampleConfig (steadyOracle 1000)
        [PageResponse.page [upMonitor] false] emptyWorld).2 Environment.staging
        = [Event.read "staging"] ∧
    (checkSystemStatus asciiHost sampleConfig (steadyOracle 86401000)
      [PageResponse.page [upMonitor] false]
      (checkSystemStatus asciiHost sampleConfig (steadyOracle 2000)
        [PageResponse.page [upMonitor] false]
        (checkSystemStatus asciiHost sampleConfig (steadyOracle 1000)
          [PageResponse.page [upMonitor] false] emptyWorld).2).2).2.store "staging"
        = some { lastNotificationTime := 86401000 } :=
  have hx := throttle_idempotence asciiHost sampleConfig Environment.staging
    (steadyOracle 1000) (steadyOracle 2000) (steadyOracle 86401000)
    [PageResponse.page [upMonitor] false] [PageResponse.page [upMonitor] false]
    [PageResponse.page [upMonitor] false] emptyWorld 1000 2000 86401000
    (fun _ => rfl) (fun _ => rfl) (fun _ => rfl) (fun _ => rfl) (fun _ => rfl)
    (fun _ => rfl) (fun _ => rfl) (fun _ => rfl)
    (by decide) (by decide) (by decide) rfl (by decide) (by decide) (by decide)
  ⟨hx.2.1, hx.2.2.1, hx.2.2.2.2.2⟩

end AlertSummary

/-! ## Classification lemmas -/

namespace AlertSummary

theorem bucketOf_eq_firstMatch (h : JsHost) (monitor : Monitor) :
    bucketOf h monitor = firstMatch rules (toLowerCase h monitor.attributes.url) := by
  cases h1 : includes (toLowerCase h monitor.attributes.url) "explorer-api-2.mobula.io".data <;>
  cases h2 : includes (toLowerCase h monitor.attributes.url) "explorer-api.mobula.io".data <;>
  cases h3 : includes (toLowerCase h monitor.attributes.url) "explorer-api.zobula.xyz".data <;>
  cases h4 : includes (toLowerCase h monitor.attributes.url) "api.mobula.io".data <;>
  cases h5 : includes (toLowerCase h monitor.attributes.url) "api.zobula.xyz".data <;>
  simp [bucketOf, categorizeStep, rules, firstMatch, h1, h2, h3, h4, h5]

theorem categorizeStep_eq (h : JsHost) (c : Categories) (monitor : Monitor) :
    categorizeStep h c monitor =
      { production :=
          c.production ++ [monitor].filter (fun m => decide (bucketOf h m = some Bucket.production))
        staging :=
          c.staging ++ [monitor].filter (fun m => decide (bucketOf h m = some Bucket.staging)) } := by
  rw [List.filter_singleton, List.filter_singleton]
  cases h1 : includes (toLowerCase h monitor.attributes.url) "explorer-api-2.mobula.io".data <;>
  cases h2 : includes (toLowerCase h monitor.attributes.url) "explorer-api.mobula.io".data <;>
  cases h3 : includes (toLowerCase h monitor.attributes.url) "explorer-api.zobula.xyz".data <;>
  cases h4 : includes (toLowerCase h monitor.attributes.url) "api.mobula.io".data <;>
  cases h5 : includes (toLowerCase h monitor.attributes.url) "api.zobula.xyz".data <;>
  simp [bucketOf, categorizeStep, h1, h2, h3, h4, h5]

theorem categorize_foldl (h : JsHost) (monitors : List Monitor) (c : Categories) :
    monitors.foldl (categorizeStep h) c =
      { production :=
          c.production ++ monitors.filter (fun m => decide (bucketOf h m = some Bucket.production))
        staging :=
          c.staging ++ monitors.filter (fun m => decide (bucketOf h m = some Bucket.staging)) } := by
  induction monitors generalizing c with
  | nil => simp
  | cons m rest ih =>
    rw [List.foldl_cons, ih, categorizeStep_eq]
    simp only [List.append_assoc, ← List.filter_append, List.singleton_append]

/-- Each bucket is the input filtered by the bucket the loop body chooses. -/
theorem categorizeMonitors_eq_filter (h : JsHost) (monitors : List Monitor) :
    categorizeMonitors h monitors =
      { production := monitors.filter (fun m => decide (bucketOf h m = some Bucket.production))
        staging := monitors.filter (fun m => decide (bucketOf h m = some Bucket.staging)) } := by
  unfold categorizeMonitors
  rw [categorize_foldl]
  simp

end AlertSummary

namespace Slack

theorem categorizeStep3_eq (h : JsHost) (c : Categories) (monitor : Monitor) :
    categorizeStep h c monitor =
      { production :=
          c.production ++ [monitor].filter (fun m => decide (bucketOf h m = some Bucket.production))
        staging :=
          c.staging ++ [monitor].filter (fun m => decide (bucketOf h m = some Bucket.staging))
        explorerPreprod :=
          c.explorerPreprod ++
            [monitor].filter (fun m => decide (bucketOf h m = some Bucket.explorerPreprod)) } := by
  rw [List.filter_singleton, List.filter_singleton, List.filter_singleton]
  cases h1 : includes (toLowerCase h monitor.attributes.url)
    "explorer-api.zobula.xyz/health".data <;>
  cases h2 : includes (toLowerCase h monitor.attributes.url) "api.mobula.io".data <;>
  cases h3 : includes (toLowerCase h monitor.attributes.url) "api.zobula.xyz".data <;>
  cases h4 : includes (toLowerCase h monitor.attributes.url) "explorer-api.zobula.xyz".data <;>
  simp [bucketOf, categorizeStep, h1, h2, h3, h4]

theorem categorize3_foldl (h : JsHost) (monitors : List Monitor) (c : Categories) :
    monitors.foldl (categorizeStep h) c =
      { production :=
          c.production ++ monitors.filter (fun m => decide (bucketOf h m = some Bucket.production))
        staging :=
          c.staging ++ monitors.filter (fun m => decide (bucketOf h m = some Bucket.staging))
        explorerPreprod :=
          c.explorerPreprod ++
            monitors.filter (fun m => decide (bucketOf h m = some Bucket.explorerPreprod)) } := by
  induction monitors generalizing c with
  | nil => simp
  | cons m rest ih =>
    rw [List.foldl_cons, ih, categorizeStep3_eq]
    simp only [List.append_assoc, ← List.filter_append, List.singleton_append]

/-- Each bucket is the input filtered by the bucket the loop body chooses. -/
theorem categorizeMonitors3_eq_filter (h : JsHost) (monitors : List Monitor) :
    categorizeMonitors h monitors =
      { production := monitors.filter (fun m => decide (bucketOf h m = some Bucket.production))
        staging := monitors.filter (fun m => decide (bucketOf h m = some Bucket.staging))
        explorerPreprod :=
          monitors.filter (fun m => decide (bucketOf h m = some Bucket.explorerPreprod)) } := by
  unfold categorizeMonitors
  rw [categorize3_foldl]
  simp

end Slack

/-! ## Substring lemmas -/

theorem startsWith_iff (s p : List Char) : startsWith s p = true ↔ ∃ b, s = p ++ b := by
  induction p generalizing s with
  | nil => simp [startsWith]
  | cons d p ih =>
    cases s with
    | nil => simp [startsWith]
    | cons c s =>
      simp only [startsWith, Bool.and_eq_true, beq_iff_eq, ih, List.cons_append, List.cons.injEq]
      constructor
      · rintro ⟨rfl, b, rfl⟩; exact ⟨b, rfl, rfl⟩
      · rintro ⟨b, rfl, rfl⟩; exact ⟨rfl, b, rfl⟩

theorem includes_iff (s p : List Char) :
    includes s p = true ↔ ∃ a b, s = a ++ p ++ b := by
  induction s with
  | nil =>
    simp only [includes, startsWith_iff]
    constructor
    · rintro ⟨b, hb⟩; exact ⟨[], b, by simpa using hb⟩
    · rintro ⟨a, b, hab⟩
      have h1 : a = [] := by
        cases a with
        | nil => rfl
        | cons x xs => simp at hab
      subst h1
      exact ⟨b, by simpa using hab⟩
  | cons c s ih =>
    simp only [includes, Bool.or_eq_true, startsWith_iff, ih]
    constructor
    · rintro (⟨b, hb⟩ | ⟨a, b, hab⟩)
      · exact ⟨[], b, by simpa using hb⟩
      · exact ⟨c :: a, b, by simp [hab]⟩
    · rintro ⟨a, b, hab⟩
      cases a with
      | nil => exact Or.inl ⟨b, by simpa using hab⟩
      | cons x xs =>
        simp only [List.cons_append, List.cons.injEq] at hab
        exact Or.inr ⟨xs, b, by simp [hab.2]⟩

/-- A pattern that lower-casing leaves alone and that occurs in a string also occurs in the
lower-cased string. -/
theorem includes_toLowerCase (h : JsHost) (s : String) (p : List Char)
    (hp : p.flatMap (lowerChar h) = p) (hs : includes s.data p = true) :
    includes (toLowerCase h s) p = true := by
  obtain ⟨a, b, hab⟩ := (includes_iff _ _).mp hs
  refine (includes_iff _ _).mpr ⟨a.flatMap (lowerChar h), b.flatMap (lowerChar h), ?_⟩
  unfold toLowerCase
  rw [hab, List.flatMap_append, List.flatMap_append, hp]

theorem lowerChar_congr (h : JsHost) (c d : Char) (hcd : sameCharUpToCase c d = true) :
    lowerChar h c = lowerChar h d := by
  unfold sameCharUpToCase at hcd
  simp only [Bool.or_eq_true, beq_iff_eq, Bool.and_eq_true, decide_eq_true_eq] at hcd
  rcases hcd with rfl | ⟨⟨hc, hd⟩, hl⟩
  · rfl
  · simp [lowerChar, hc, hd, hl]

theorem flatMap_lowerChar_congr (h : JsHost) (s t : List Char)
    (hst : sameUpToCase s t = true) :
    s.flatMap (lowerChar h) = t.flatMap (lowerChar h) := by
  induction s generalizing t with
  | nil =>
    cases t with
    | nil => rfl
    | cons d t => simp [sameUpToCase] at hst
  | cons c s ih =>
    cases t with
    | nil => simp [sameUpToCase] at hst
    | cons d t =>
      simp only [sameUpToCase, Bool.and_eq_true] at hst
      simp only [List.flatMap_cons, lowerChar_congr h c d hst.1, ih t hst.2]

theorem toLowerCase_congr (h : JsHost) (m m' : Monitor)
    (hmm : sameMonitorUpToCase m m' = true) :
    toLowerCase h m.attributes.url = toLowerCase h m'.attributes.url := by
  unfold sameMonitorUpToCase at hmm
  simp only [Bool.and_eq_true] at hmm
  exact flatMap_lowerChar_congr h _ _ hmm.1.1.2

theorem sameMonitorsUpToCase_filter (p q : Monitor → Bool) (ms ms' : List Monitor)
    (hsame : sameMonitorsUpToCase ms ms' = true)
    (hpq : ∀ m m', sameMonitorUpToCase m m' = true → p m = q m') :
    sameMonitorsUpToCase (ms.filter p) (ms'.filter q) = true := by
  induction ms generalizing ms' with
  | nil =>
    cases ms' with
    | nil => rfl
    | cons m' ms' => simp [sameMonitorsUpToCase] at hsame
  | cons m ms ih =>
    cases ms' with
    | nil => simp [sameMonitorsUpToCase] at hsame
    | cons m' ms' =>
      simp only [sameMonitorsUpToCase, Bool.and_eq_true] at hsame
      have hm := hpq m m' hsame.1
      simp only [List.filter_cons, hm]
      cases hq : q m'
      · simpa using ih ms' hsame.2
      · simp only [if_true, sameMonitorsUpToCase, Bool.and_eq_true]
        exact ⟨hsame.1, ih ms' hsame.2⟩

theorem map_congr_of_same {β : Type} (f : Monitor → β) (ms ms' : List Monitor)
    (hsame : sameMonitorsUpToCase ms ms' = true)
    (hf : ∀ m m', sameMonitorUpToCase m m' = true → f m = f m') :
    ms.map f = ms'.map f := by
  induction ms generalizing ms' with
  | nil =>
    cases ms' with
    | nil => rfl
    | cons m' ms' => simp [sameMonitorsUpToCase] at hsame
  | cons m ms ih =>
    cases ms' with
    | nil => simp [sameMonitorsUpToCase] at hsame
    | cons m' ms' =>
      simp only [sameMonitorsUpToCase, Bool.and_eq_true] at hsame
      simp only [List.map_cons, hf m m' hsame.1, ih ms' hsame.2]

theorem count_filter_bucket {α : Type} [DecidableEq α] (f : α → Option Bucket) (l : List α)
    (a : α) (b : Bucket) :
    (l.filter (fun x => decide (f x = some b))).count a =
      if f a = some b then l.count a else 0 := by
  split
  · next hb => exact List.count_filter (by simpa using hb)
  · next hb =>
    refine List.count_eq_zero.mpr (fun hmem => ?_)
    simp only [List.mem_filter, decide_eq_true_eq] at hmem
    exact hb hmem.2

theorem count_buckets_le {α : Type} [DecidableEq α] (f : α → Option Bucket) (l : List α)
    (a : α) :
    (l.filter (fun x => decide (f x = some Bucket.production))).count a
      + (l.filter (fun x => decide (f x = some Bucket.staging))).count a
      + (l.filter (fun x => decide (f x = some Bucket.explorerPreprod))).count a
      ≤ l.count a := by
  simp only [count_filter_bucket]
  rcases hf : f a with _ | (_ | _ | _) <;> simp

theorem length_buckets_le {α : Type} (f : α → Option Bucket) (l : List α) :
    (l.filter (fun x => decide (f x = some Bucket.production))).length
      + (l.filter (fun x => decide (f x = some Bucket.staging))).length
      + (l.filter (fun x => decide (f x = some Bucket.explorerPreprod))).length
      ≤ l.length := by
  induction l with
  | nil => simp
  | cons b rest ih =>
    rcases hf : f b with _ | (_ | _ | _) <;>
      simp only [List.filter_cons, hf, List.length_cons] <;> simp <;> omega


theorem AlertSummary.bucketOf_congr (h : JsHost) (m m' : Monitor)
    (hmm : sameMonitorUpToCase m m' = true) :
    AlertSummary.bucketOf h m = AlertSummary.bucketOf h m' := by
  rw [AlertSummary.bucketOf_eq_firstMatch, AlertSummary.bucketOf_eq_firstMatch,
    toLowerCase_congr h m m' hmm]

theorem Slack.bucketOf3_eq (h : JsHost) (monitor : Monitor) :
    Slack.bucketOf h monitor =
      if includes (toLowerCase h monitor.attributes.url) "explorer-api.zobula.xyz/health".data
      then some Bucket.explorerPreprod
      else if includes (toLowerCase h monitor.attributes.url) "api.mobula.io".data
      then some Bucket.production
      else if includes (toLowerCase h monitor.attributes.url) "api.zobula.xyz".data
          && !includes (toLowerCase h monitor.attributes.url) "explorer-api.zobula.xyz".data
      then some Bucket.staging
      else none := by
  cases h1 : includes (toLowerCase h monitor.attributes.url)
    "explorer-api.zobula.xyz/health".data <;>
  cases h2 : includes (toLowerCase h monitor.attributes.url) "api.mobula.io".data <;>
  cases h3 : includes (toLowerCase h monitor.attributes.url) "api.zobula.xyz".data <;>
  cases h4 : includes (toLowerCase h monitor.attributes.url) "explorer-api.zobula.xyz".data <;>
  simp [Slack.bucketOf, Slack.categorizeStep, h1, h2, h3, h4]

theorem Slack.bucketOf3_congr (h : JsHost) (m m' : Monitor)
    (hmm : sameMonitorUpToCase m m' = true) :
    Slack.bucketOf h m = Slack.bucketOf h m' := by
  rw [Slack.bucketOf3_eq, Slack.bucketOf3_eq, toLowerCase_congr h m m' hmm]

/-! ## Classification -/

/-- C6: in both scripts, for every list of monitors and every monitor record, the
occurrences of the record in the buckets of `categorizeMonitors`, taken together, are at
most its occurrences in the input, and every bucket is a sublist of the input; hence every
input position is used by at most one bucket and at most once, and the bucket lengths sum
to at most the input length. -/
theorem each_monitor_in_at_most_one_bucket (h : JsHost) (monitors : List Monitor) :
    (∀ m : Monitor,
      (AlertSummary.categorizeMonitors h monitors).production.count m
        + (AlertSummary.categorizeMonitors h monitors).staging.count m ≤ monitors.count m) ∧
    (AlertSummary.categorizeMonitors h monitors).production.length
      + (AlertSummary.categorizeMonitors h monitors).staging.length ≤ monitors.length ∧
    (∀ m : Monitor,
      (Slack.categorizeMonitors h monitors).production.count m
        + (Slack.categorizeMonitors h monitors).staging.count m
        + (Slack.categorizeMonitors h monitors).explorerPreprod.count m ≤ monitors.count m) ∧
    (Slack.categorizeMonitors h monitors).production.length
      + (Slack.categorizeMonitors h monitors).staging.length
      + (Slack.categorizeMonitors h monitors).explorerPreprod.length ≤ monitors.length ∧
    (AlertSummary.categorizeMonitors h monitors).production.Sublist monitors ∧
    (AlertSummary.categorizeMonitors h monitors).staging.Sublist monitors ∧
    (Slack.categorizeMonitors h monitors).production.Sublist monitors ∧
    (Slack.categorizeMonitors h monitors).staging.Sublist monitors ∧
    (Slack.categorizeMonitors h monitors).explorerPreprod.Sublist monitors := by
  rw [AlertSummary.categorizeMonitors_eq_filter, Slack.categorizeMonitors3_eq_filter]
  refine ⟨fun m => ?_, ?_, fun m => ?_, ?_, List.filter_sublist _, List.filter_sublist _,
    List.filter_sublist _, List.filter_sublist _, List.filter_sublist _⟩
  · have hc := count_buckets_le (AlertSummary.bucketOf h) monitors m
    simp only at hc ⊢
    omega
  · have hl := length_buckets_le (AlertSummary.bucketOf h) monitors
    simp only at hl ⊢
    omega
  · exact count_buckets_le (Slack.bucketOf h) monitors m
  · exact length_buckets_le (Slack.bucketOf h) monitors

/-- C7: in the two-environment script, a monitor of the input whose URL contains
`explorer-api-2.mobula.io` (as written, or after lower-casing) is in the production bucket,
as often as it occurs in the input, and is not in the staging bucket. -/
theorem explorer_api_2_is_production (h : JsHost) (monitors : List Monitor) (m : Monitor)
    (hm : m ∈ monitors)
    (hurl : includes m.attributes.url.data "explorer-api-2.mobula.io".data = true ∨
      includes (toLowerCase h m.attributes.url) "explorer-api-2.mobula.io".data = true) :
    m ∈ (AlertSummary.categorizeMonitors h monitors).production ∧
    m ∉ (AlertSummary.categorizeMonitors h monitors).staging ∧
    (AlertSummary.categorizeMonitors h monitors).production.count m = monitors.count m := by
  have hlow : includes (toLowerCase h m.attributes.url) "explorer-api-2.mobula.io".data
      = true := by
    rcases hurl with hraw | hlow
    · exact includes_toLowerCase h _ _ (by simp [lowerChar, Char.toLower]) hraw
    · exact hlow
  have hb : AlertSummary.bucketOf h m = some Bucket.production := by
    rw [AlertSummary.bucketOf_eq_firstMatch]
    simp [AlertSummary.rules, AlertSummary.firstMatch, hlow]
  rw [AlertSummary.categorizeMonitors_eq_filter]
  refine ⟨?_, ?_, ?_⟩
  · simp [List.mem_filter, hm, hb]
  · simp [List.mem_filter, hb]
  · simp only
    rw [count_filter_bucket, if_pos hb]

/-- C7 at a concrete input: an upper-case URL of the second explorer API among other
monitors. -/
theorem explorer_api_2_is_production_witness :
    (⟨"7", ⟨"https://EXPLORER-API-2.mobula.io/health", none, "down"⟩⟩ : Monitor) ∈
      (AlertSummary.categorizeMonitors asciiHost
        [upMonitor, ⟨"7", ⟨"https://EXPLORER-API-2.mobula.io/health", none, "down"⟩⟩]).production :=
  (explorer_api_2_is_production asciiHost
    [upMonitor, ⟨"7", ⟨"https://EXPLORER-API-2.mobula.io/health", none, "down"⟩⟩]
    ⟨"7", ⟨"https://EXPLORER-API-2.mobula.io/health", none, "down"⟩⟩
    (by decide) (Or.inr (by decide))).1

/-- C8: the buckets of the two-environment `categorizeMonitors` are those of first match
wins over the ordered rule list, each bucket being the input monitors whose first matching
rule names it, in input order; a monitor whose lower-cased URL contains none of the five
substrings is in no bucket. -/
theorem categorizeMonitors_first_match_wins (h : JsHost) (monitors : List Monitor) :
    (AlertSummary.categorizeMonitors h monitors).production =
      AlertSummary.classify h AlertSummary.rules monitors Bucket.production ∧
    (AlertSummary.categorizeMonitors h monitors).staging =
      AlertSummary.classify h AlertSummary.rules monitors Bucket.staging ∧
    AlertSummary.classify h AlertSummary.rules monitors Bucket.explorerPreprod = [] ∧
    (∀ m : Monitor,
      (∀ r ∈ AlertSummary.rules,
        includes (toLowerCase h m.attributes.url) r.1.data = false) →
      m ∉ (AlertSummary.categorizeMonitors h monitors).production ∧
      m ∉ (AlertSummary.categorizeMonitors h monitors).staging) := by
  rw [AlertSummary.categorizeMonitors_eq_filter]
  simp only [AlertSummary.classify, AlertSummary.bucketOf_eq_firstMatch]
  refine ⟨trivial, trivial, ?_, ?_⟩
  · rw [List.filter_eq_nil_iff]
    intro m _
    cases h1 : includes (toLowerCase h m.attributes.url) "explorer-api-2.mobula.io".data <;>
    cases h2 : includes (toLowerCase h m.attributes.url) "explorer-api.mobula.io".data <;>
    cases h3 : includes (toLowerCase h m.attributes.url) "explorer-api.zobula.xyz".data <;>
    cases h4 : includes (toLowerCase h m.attributes.url) "api.mobula.io".data <;>
    cases h5 : includes (toLowerCase h m.attributes.url) "api.zobula.xyz".data <;>
    simp [AlertSummary.rules, AlertSummary.firstMatch, h1, h2, h3, h4, h5]
  · intro m hnone
    have hf : AlertSummary.firstMatch AlertSummary.rules (toLowerCase h m.attributes.url)
        = none := by
      simp only [AlertSummary.rules, List.mem_cons, List.mem_singleton, forall_eq_or_imp,
        forall_eq, List.not_mem_nil, false_implies, forall_const, and_true]
        at hnone
      obtain ⟨h1, h2, h3, h4, h5⟩ := hnone
      simp [AlertSummary.rules, AlertSummary.firstMatch, h1, h2, h3, h4, h5]
    simp [List.mem_filter, hf]

/-- C8 at a concrete input: a monitor of another host is dropped. -/
theorem categorizeMonitors_first_match_wins_witness :
    (⟨"9", ⟨"https://example.com/api", none, "up"⟩⟩ : Monitor) ∉
      (AlertSummary.categorizeMonitors asciiHost
        [⟨"9", ⟨"https://example.com/api", none, "up"⟩⟩, downMonitor]).production ∧
    (⟨"9", ⟨"https://example.com/api", none, "up"⟩⟩ : Monitor) ∉
      (AlertSummary.categorizeMonitors asciiHost
        [⟨"9", ⟨"https://example.com/api", none, "up"⟩⟩, downMonitor]).staging :=
  (categorizeMonitors_first_match_wins asciiHost
    [⟨"9", ⟨"https://example.com/api", none, "up"⟩⟩, downMonitor]).2.2.2
    ⟨"9", ⟨"https://example.com/api", none, "up"⟩⟩ (by decide)

/-- C9: in both scripts, when two monitor lists agree position by position up to the case
of the ASCII letters of the URLs, every position is given the same bucket, and each bucket
of one list agrees position by position, up to the case of the URLs, with the same bucket
of the other. -/
theorem classification_case_insensitive (h : JsHost) (ms ms' : List Monitor)
    (hsame : sameMonitorsUpToCase ms ms' = true) :
    ms.map (AlertSummary.bucketOf h) = ms'.map (AlertSummary.bucketOf h) ∧
    sameMonitorsUpToCase (AlertSummary.categorizeMonitors h ms).production
      (AlertSummary.categorizeMonitors h ms').production = true ∧
    sameMonitorsUpToCase (AlertSummary.categorizeMonitors h ms).staging
      (AlertSummary.categorizeMonitors h ms').staging = true ∧
    ms.map (Slack.bucketOf h) = ms'.map (Slack.bucketOf h) ∧
    sameMonitorsUpToCase (Slack.categorizeMonitors h ms).production
      (Slack.categorizeMonitors h ms').production = true ∧
    sameMonitorsUpToCase (Slack.categorizeMonitors h ms).staging
      (Slack.categorizeMonitors h ms').staging = true ∧
    sameMonitorsUpToCase (Slack.categorizeMonitors h ms).explorerPreprod
      (Slack.categorizeMonitors h ms').explorerPreprod = true := by
  simp only [AlertSummary.categorizeMonitors_eq_filter, Slack.categorizeMonitors3_eq_filter]
  refine ⟨map_congr_of_same _ ms ms' hsame (AlertSummary.bucketOf_congr h), ?_, ?_,
    map_congr_of_same _ ms ms' hsame (Slack.bucketOf3_congr h), ?_, ?_, ?_⟩
  · exact sameMonitorsUpToCase_filter _ _ ms ms' hsame
      (fun m m' hmm => by rw [AlertSummary.bucketOf_congr h m m' hmm])
  · exact sameMonitorsUpToCase_filter _ _ ms ms' hsame
      (fun m m' hmm => by rw [AlertSummary.bucketOf_congr h m m' hmm])
  · exact sameMonitorsUpToCase_filter _ _ ms ms' hsame
      (fun m m' hmm => by rw [Slack.bucketOf3_congr h m m' hmm])
  · exact sameMonitorsUpToCase_filter _ _ ms ms' hsame
      (fun m m' hmm => by rw [Slack.bucketOf3_congr h m m' hmm])
  · exact sameMonitorsUpToCase_filter _ _ ms ms' hsame
      (fun m m' hmm => by rw [Slack.bucketOf3_congr h m m' hmm])

/-- C9 at a concrete input: the same URL in lower case and in mixed case. -/
theorem classification_case_insensitive_witness :
    [(⟨"43", ⟨"https://api.mobula.io/status", none, "up"⟩⟩ : Monitor)].map
        (Slack.bucketOf asciiHost) = [upMonitor].map (Slack.bucketOf asciiHost) :=
  (classification_case_insensitive asciiHost
    [⟨"43", ⟨"https://api.mobula.io/status", none, "up"⟩⟩] [upMonitor] (by decide)).2.2.2.1


/-! ## Status counts -/

theorem StatusCounts.lookup_setOwn (counts : StatusCounts) (key : String) (value : JsValue)
    (k : String) :
    (StatusCounts.setOwn counts key value).lookup k =
      if k = key then some value else counts.lookup k := by
  induction counts with
  | nil =>
    by_cases hk : k = key
    · simp [StatusCounts.setOwn, List.lookup, hk]
    · have hb : (k == key) = false := by simpa using hk
      simp [StatusCounts.setOwn, List.lookup, hb, hk]
  | cons kv rest ih =>
    obtain ⟨k0, v0⟩ := kv
    by_cases h0 : k0 = key
    · subst h0
      by_cases hk : k = k0
      · simp [StatusCounts.setOwn, List.lookup, hk]
      · have hb : (k == k0) = false := by simpa using hk
        simp [StatusCounts.setOwn, List.lookup, hb, hk]
    · have hb0 : (k0 == key) = false := by simpa using h0
      by_cases hk : k = k0
      · subst hk
        simp [StatusCounts.setOwn, List.lookup, hb0, h0]
      · have hb : (k == k0) = false := by simpa using hk
        simp [StatusCounts.setOwn, List.lookup, hb0, hb, ih]

theorem StatusCounts.get_set_other (counts : StatusCounts) (key k : String) (value : JsValue)
    (hk : k ≠ key) : (counts.set key value).get k = counts.get k := by
  unfold StatusCounts.set
  by_cases hp : key = "__proto__"
  · rw [if_pos hp]
  · rw [if_neg hp]
    unfold StatusCounts.get
    rw [StatusCounts.lookup_setOwn, if_neg hk]

theorem ordinary_ne_proto (key : String) (hkey : objectPrototypeMembers.lookup key = none) :
    key ≠ "__proto__" := by
  intro hp
  rw [hp] at hkey
  exact absurd hkey (by decide)

theorem StatusCounts.get_set_same (counts : StatusCounts) (key : String)
    (hkey : objectPrototypeMembers.lookup key = none) (n : Nat) :
    (counts.set key (JsValue.number n)).get key = JsValue.number n := by
  unfold StatusCounts.set
  rw [if_neg (ordinary_ne_proto key hkey)]
  unfold StatusCounts.get
  rw [StatusCounts.lookup_setOwn, if_pos rfl]

theorem aggregate_foldl_get (includeDownMonitors : Bool) (monitors : List Monitor)
    (acc : Aggregate) (status : String)
    (hstatus : objectPrototypeMembers.lookup status = none) (n : Nat)
    (hacc : acc.statusCounts.get status = JsValue.number n) :
    (monitors.foldl (aggregateStep includeDownMonitors) acc).statusCounts.get status =
      JsValue.number (n + monitors.countP (fun m => m.attributes.status == status)) := by
  induction monitors generalizing acc n with
  | nil => simpa using hacc
  | cons m rest ih =>
    rw [List.foldl_cons, List.countP_cons]
    by_cases hs : m.attributes.status = status
    · have hstep : (aggregateStep includeDownMonitors acc m).statusCounts.get status =
          JsValue.number (n + 1) := by
        show (acc.statusCounts.set m.attributes.status
          (acc.statusCounts.get m.attributes.status).plusOne).get status = _
        rw [hs, hacc]
        exact StatusCounts.get_set_same _ _ hstatus _
      rw [ih _ (n + 1) hstep]
      simp [hs]
      omega
    · have hstep : (aggregateStep includeDownMonitors acc m).statusCounts.get status =
          JsValue.number n := by
        show (acc.statusCounts.set m.attributes.status
          (acc.statusCounts.get m.attributes.status).plusOne).get status = _
        rw [StatusCounts.get_set_other _ _ _ _ (fun e => hs e.symm), hacc]
      rw [ih _ n hstep]
      simp [hs]

theorem initial_get (status : String) (hstatus : objectPrototypeMembers.lookup status = none) :
    StatusCounts.get
      [("up", JsValue.number 0), ("down", JsValue.number 0), ("paused", JsValue.number 0),
       ("validating", JsValue.number 0)] status = JsValue.number 0 := by
  unfold StatusCounts.get
  rw [hstatus]
  by_cases h1 : status = "up"
  · subst h1; rfl
  · by_cases h2 : status = "down"
    · subst h2; rfl
    · by_cases h3 : status = "paused"
      · subst h3; rfl
      · by_cases h4 : status = "validating"
        · subst h4; rfl
        · have b1 : (status == "up") = false := by simpa using h1
          have b2 : (status == "down") = false := by simpa using h2
          have b3 : (status == "paused") = false := by simpa using h3
          have b4 : (status == "validating") = false := by simpa using h4
          simp only [List.lookup, b1, b2, b3, b4]

theorem aggregate_get (monitors : List Monitor) (includeDownMonitors : Bool)
    (status : String) (hstatus : objectPrototypeMembers.lookup status = none) :
    (aggregate monitors includeDownMonitors).statusCounts.get status =
      JsValue.number (monitors.countP (fun m => m.attributes.status == status)) := by
  unfold aggregate
  rw [aggregate_foldl_get includeDownMonitors monitors _ status hstatus 0
    (initial_get status hstatus), Nat.zero_add]

theorem StatusCounts.keys_setOwn (counts : StatusCounts) (key : String) (value : JsValue)
    (hnodup : (counts.map Prod.fst).Nodup) :
    ((StatusCounts.setOwn counts key value).map Prod.fst).Nodup ∧
    ∀ k, k ∈ (StatusCounts.setOwn counts key value).map Prod.fst ↔
      k = key ∨ k ∈ counts.map Prod.fst := by
  induction counts with
  | nil => simp [StatusCounts.setOwn]
  | cons kv rest ih =>
    obtain ⟨k, v⟩ := kv
    simp only [List.map_cons, List.nodup_cons] at hnodup
    obtain ⟨ih1, ih2⟩ := ih hnodup.2
    by_cases hk : k = key
    · have hb : (k == key) = true := by simpa using hk
      simp only [StatusCounts.setOwn, hb, if_true, List.map_cons, List.nodup_cons,
        List.mem_cons]
      exact ⟨hnodup, fun k' => by rw [hk]; tauto⟩
    · have hb : (k == key) = false := by simpa using hk
      simp only [StatusCounts.setOwn, hb, Bool.false_eq_true, if_false, List.map_cons,
        List.nodup_cons, List.mem_cons]
      refine ⟨⟨?_, ih1⟩, fun k' => ?_⟩
      · intro hmem
        rcases (ih2 k).mp hmem with h1 | h2
        · exact hk h1
        · exact hnodup.1 h2
      · rw [ih2 k']
        tauto

theorem StatusCounts.keys_set (counts : StatusCounts) (key : String) (value : JsValue)
    (hnodup : (counts.map Prod.fst).Nodup) :
    ((counts.set key value).map Prod.fst).Nodup := by
  unfold StatusCounts.set
  by_cases hp : key = "__proto__"
  · rw [if_pos hp]
    exact hnodup
  · rw [if_neg hp]
    exact (StatusCounts.keys_setOwn counts key value hnodup).1

theorem StatusCounts.setOwn_numbers (counts : StatusCounts) (key : String)
    (hkey : objectPrototypeMembers.lookup key = none)
    (hnum : ∀ kv ∈ counts, ∃ n, kv.2 = JsValue.number n) :
    (∀ kv ∈ StatusCounts.setOwn counts key (counts.get key).plusOne,
      ∃ n, kv.2 = JsValue.number n) ∧
    (((StatusCounts.setOwn counts key (counts.get key).plusOne).map Prod.snd).map
      JsValue.toNat).sum = ((counts.map Prod.snd).map JsValue.toNat).sum + 1 := by
  induction counts with
  | nil =>
    have hget : StatusCounts.get [] key = JsValue.number 0 := by
      unfold StatusCounts.get
      rw [hkey]
      rfl
    rw [hget]
    refine ⟨fun kv hkv => ?_, rfl⟩
    simp only [StatusCounts.setOwn, List.mem_singleton] at hkv
    exact ⟨1, by rw [hkv]; rfl⟩
  | cons kv rest ih =>
    obtain ⟨k0, v0⟩ := kv
    obtain ⟨n0, hn0⟩ := hnum (k0, v0) (List.mem_cons_self _ _)
    simp only at hn0
    subst hn0
    have hrest : ∀ kv ∈ rest, ∃ n, kv.2 = JsValue.number n :=
      fun kv hkv => hnum kv (List.mem_cons_of_mem _ hkv)
    by_cases hk : k0 = key
    · have hb : (k0 == key) = true := by simpa using hk
      have hb2 : (key == k0) = true := by simpa using hk.symm
      have hget : StatusCounts.get ((k0, JsValue.number n0) :: rest) key
          = JsValue.number n0 := by
        simp only [StatusCounts.get, List.lookup, hb2]
      rw [hget]
      simp only [StatusCounts.setOwn, hb, if_true, JsValue.plusOne]
      refine ⟨fun kv hkv => ?_, ?_⟩
      · rcases List.mem_cons.mp hkv with rfl | hmem
        · exact ⟨n0 + 1, rfl⟩
        · exact hrest kv hmem
      · simp only [List.map_cons, List.sum_cons, JsValue.toNat]
        omega
    · have hb : (k0 == key) = false := by simpa using hk
      have hb2 : (key == k0) = false := by simpa using (fun e : key = k0 => hk e.symm)
      have hget : StatusCounts.get ((k0, JsValue.number n0) :: rest) key
          = StatusCounts.get rest key := by
        simp only [StatusCounts.get, List.lookup, hb2]
      rw [hget]
      obtain ⟨ih1, ih2⟩ := ih hrest
      simp only [StatusCounts.setOwn, hb]
      refine ⟨fun kv hkv => ?_, ?_⟩
      · rcases List.mem_cons.mp hkv with rfl | hmem
        · exact ⟨n0, rfl⟩
        · exact ih1 kv hmem
      · simp only [Bool.false_eq_true, if_false, List.map_cons, List.sum_cons, ih2]
        omega

theorem aggregate_foldl_counts (includeDownMonitors : Bool) (monitors : List Monitor)
    (acc : Aggregate)
    (hord : ∀ m ∈ monitors, objectPrototypeMembers.lookup m.attributes.status = none)
    (hnum : ∀ kv ∈ acc.statusCounts, ∃ n, kv.2 = JsValue.number n) :
    (∀ kv ∈ (monitors.foldl (aggregateStep includeDownMonitors) acc).statusCounts,
      ∃ n, kv.2 = JsValue.number n) ∧
    ((((monitors.foldl (aggregateStep includeDownMonitors) acc).statusCounts.map
      Prod.snd).map JsValue.toNat).sum
      = ((acc.statusCounts.map Prod.snd).map JsValue.toNat).sum + monitors.length) := by
  induction monitors generalizing acc with
  | nil => exact ⟨hnum, rfl⟩
  | cons m rest ih =>
    have hm := hord m (List.mem_cons_self _ _)
    have hstep := StatusCounts.setOwn_numbers acc.statusCounts m.attributes.status hm hnum
    have hset : (aggregateStep includeDownMonitors acc m).statusCounts =
        StatusCounts.setOwn acc.statusCounts m.attributes.status
          (acc.statusCounts.get m.attributes.status).plusOne := by
      show StatusCounts.set _ _ _ = _
      unfold StatusCounts.set
      rw [if_neg (ordinary_ne_proto _ hm)]
    rw [← hset] at hstep
    obtain ⟨i1, i2⟩ := ih (aggregateStep includeDownMonitors acc m)
      (fun m' hm' => hord m' (List.mem_cons_of_mem _ hm')) hstep.1
    rw [List.foldl_cons]
    refine ⟨i1, ?_⟩
    rw [i2, hstep.2, List.length_cons]
    omega

theorem aggregate_foldl_keys (includeDownMonitors : Bool) (monitors : List Monitor)
    (acc : Aggregate) (hnodup : (acc.statusCounts.map Prod.fst).Nodup) :
    ((monitors.foldl (aggregateStep includeDownMonitors) acc).statusCounts.map
      Prod.fst).Nodup := by
  induction monitors generalizing acc with
  | nil => exact hnodup
  | cons m rest ih =>
    rw [List.foldl_cons]
    exact ih _ (StatusCounts.keys_set _ _ _ hnodup)

/-- For every bucket none of whose status values names a property inherited from
`Object.prototype`: `totalMonitors` is the bucket length, every value of `statusCounts`
after the loop is a number, the values over all keys (each key occurs once) add up to
`totalMonitors`, and the count kept for a status that names no inherited property, one of
the four initial ones or not, is the number of monitors of the bucket with that status. -/
theorem status_counts_sum_to_total (bucket : List Monitor) (includeDownMonitors : Bool)
    (hord : ∀ m ∈ bucket, objectPrototypeMembers.lookup m.attributes.status = none) :
    totalMonitors bucket = bucket.length ∧
    (∀ kv ∈ (aggregate bucket includeDownMonitors).statusCounts,
      ∃ n, kv.2 = JsValue.number n) ∧
    (((aggregate bucket includeDownMonitors).statusCounts.map Prod.snd).map JsValue.toNat).sum
      = totalMonitors bucket ∧
    ((aggregate bucket includeDownMonitors).statusCounts.map Prod.fst).Nodup ∧
    (∀ status, objectPrototypeMembers.lookup status = none →
      (aggregate bucket includeDownMonitors).statusCounts.get status
        = JsValue.number (bucket.countP (fun m => m.attributes.status == status))) := by
  have hinit : ∀ kv ∈
      ([("up", JsValue.number 0), ("down", JsValue.number 0), ("paused", JsValue.number 0),
        ("validating", JsValue.number 0)] : StatusCounts), ∃ n, kv.2 = JsValue.number n := by
    intro kv hkv
    simp only [List.mem_cons, List.mem_singleton, List.not_mem_nil, or_false] at hkv
    rcases hkv with rfl | rfl | rfl | rfl <;> exact ⟨0, rfl⟩
  obtain ⟨i1, i2⟩ := aggregate_foldl_counts includeDownMonitors bucket
    { statusCounts :=
        [("up", JsValue.number 0), ("down", JsValue.number 0), ("paused", JsValue.number 0),
         ("validating", JsValue.number 0)]
      downMonitors := [] } hord hinit
  refine ⟨rfl, i1, ?_, ?_, fun status hstatus =>
    aggregate_get bucket includeDownMonitors status hstatus⟩
  · unfold aggregate totalMonitors
    rw [i2]
    simp [JsValue.toNat]
  · exact aggregate_foldl_keys includeDownMonitors bucket _ (by decide)

/-- The statement above at a concrete bucket: a monitor that is up, one that is down and
one with status `pending`. -/
theorem status_counts_sum_to_total_witness :
    (((aggregate [upMonitor, downMonitor, pendingMonitor] true).statusCounts.map
      Prod.snd).map JsValue.toNat).sum = totalMonitors [upMonitor, downMonitor, pendingMonitor] :=
  (status_counts_sum_to_total [upMonitor, downMonitor, pendingMonitor] true
    (by decide)).2.2.1

/-- C10, the code at statuses that name a property inherited from `Object.prototype`.  A
bucket of one monitor with status `__proto__` has `totalMonitors` 1, but the read gives
`Object.prototype`, the sum is the string `[object Object]1`, and the assignment is
ignored: `statusCounts` keeps its four zeros, which add up to 0.  A bucket of two monitors
with status `constructor` has `totalMonitors` 2, but the read gives the function `Object`
and the value stored under `constructor` is a string, not a count; the four numbers add up
to 0. -/
theorem inherited_status_breaks_count_sum :
    totalMonitors [protoStatusMonitor] = 1 ∧
    (aggregate [protoStatusMonitor] true).statusCounts =
      [("up", JsValue.number 0), ("down", JsValue.number 0), ("paused", JsValue.number 0),
       ("validating", JsValue.number 0)] ∧
    (((aggregate [protoStatusMonitor] true).statusCounts.map Prod.snd).map JsValue.toNat).sum
      = 0 ∧
    totalMonitors [constructorStatusMonitor, constructorStatusMonitor] = 2 ∧
    (aggregate [constructorStatusMonitor, constructorStatusMonitor] true).statusCounts =
      [("up", JsValue.number 0), ("down", JsValue.number 0), ("paused", JsValue.number 0),
       ("validating", JsValue.number 0),
       ("constructor", JsValue.text "function Object() \x7b [native code] \x7d11")] ∧
    (((aggregate [constructorStatusMonitor, constructorStatusMonitor] true).statusCounts.map
      Prod.snd).map JsValue.toNat).sum = 0 := by
  refine ⟨rfl, ?_, ?_, rfl, ?_, ?_⟩
  · decide
  · decide
  · set_option maxRecDepth 20000 in decide
  · set_option maxRecDepth 20000 in decide

/-! ## The summary message -/

/-- The summary message is the template filled with the percentage and the numbers of the
bucket. -/
theorem createEnvironmentStatusMessage_message (h : JsHost) (monitors : List Monitor)
    (environmentName : String) (includeDownMonitors : Bool) :
    (createEnvironmentStatusMessage h monitors environmentName includeDownMonitors).message =
      renderSummary h environmentName
        (uptimePercentage h (summaryFigures monitors includeDownMonitors).operational
          (summaryFigures monitors includeDownMonitors).total)
        (summaryFigures monitors includeDownMonitors) := by
  have hu := aggregate_get monitors includeDownMonitors "up" (by decide)
  have hd := aggregate_get monitors includeDownMonitors "down" (by decide)
  have hp := aggregate_get monitors includeDownMonitors "paused" (by decide)
  have hv := aggregate_get monitors includeDownMonitors "validating" (by decide)
  simp only [createEnvironmentStatusMessage, summaryFigures, renderSummary, hu, hd, hp, hv,
    uptimePercentageOf, JsValue.toText, JsValue.toNat]

/-- The monitors of a bucket split into those with one of the four statuses shown and the
others. -/
theorem countP_shown_add_other (monitors : List Monitor) :
    monitors.countP (fun m => m.attributes.status == "up")
      + monitors.countP (fun m => m.attributes.status == "down")
      + monitors.countP (fun m => m.attributes.status == "paused")
      + monitors.countP (fun m => m.attributes.status == "validating")
      + monitors.countP (fun m => !shownStatuses.contains m.attributes.status)
      = monitors.length := by
  induction monitors with
  | nil => rfl
  | cons m rest ih =>
    have hsplit :
        ((if (m.attributes.status == "up") = true then 1 else 0)
          + (if (m.attributes.status == "down") = true then 1 else 0)
          + (if (m.attributes.status == "paused") = true then 1 else 0)
          + (if (m.attributes.status == "validating") = true then 1 else 0)
          + (if (!shownStatuses.contains m.attributes.status) = true then 1 else 0) : Nat)
          = 1 := by
      by_cases h1 : m.attributes.status = "up"
      · simp [h1, shownStatuses]
      · by_cases h2 : m.attributes.status = "down"
        · simp [h2, shownStatuses]
        · by_cases h3 : m.attributes.status = "paused"
          · simp [h3, shownStatuses]
          · by_cases h4 : m.attributes.status = "validating"
            · simp [h4, shownStatuses]
            · simp [h1, h2, h3, h4, shownStatuses]
    simp only [List.countP_cons, List.length_cons]
    omega

/-- C11: for every bucket, the `downMonitors` returned by `createEnvironmentStatusMessage`
with `includeDownMonitors` true are the monitors of the bucket with status `down`, in input
order; their number is the down count put in the summary message; and the list is empty
exactly when no monitor of the bucket is down. -/
theorem downMonitors_are_the_down_ones (h : JsHost) (bucket : List Monitor)
    (environmentName : String) :
    (createEnvironmentStatusMessage h bucket environmentName true).downMonitors =
      bucket.filter (fun m => m.attributes.status == "down") ∧
    (createEnvironmentStatusMessage h bucket environmentName true).downMonitors.length =
      (summaryFigures bucket true).down ∧
    (createEnvironmentStatusMessage h bucket environmentName true).message =
      renderSummary h environmentName
        (uptimePercentage h (summaryFigures bucket true).operational
          (summaryFigures bucket true).total)
        (summaryFigures bucket true) ∧
    ((createEnvironmentStatusMessage h bucket environmentName true).downMonitors = [] ↔
      ∀ m ∈ bucket, m.attributes.status ≠ "down") := by
  refine ⟨createEnvironmentStatusMessage_downMonitors h bucket environmentName, ?_,
    createEnvironmentStatusMessage_message h bucket environmentName true, ?_⟩
  · rw [createEnvironmentStatusMessage_downMonitors]
    show _ = ((aggregate bucket true).statusCounts.get "down").toNat
    rw [aggregate_get bucket true "down" (by decide), List.countP_eq_length_filter]
    rfl
  · rw [createEnvironmentStatusMessage_downMonitors, List.filter_eq_nil_iff]
    simp

/-- C12, as the code has it: for every bucket, a monitor with any status is counted in
Total Monitors and, when the status names no property inherited from `Object.prototype`,
in `statusCounts` under its status; but the summary message shows the counts of `up`,
`down`, `paused` and `validating` only; these four add up to Total Monitors less the
number of monitors with another status. -/
theorem shown_counts_leave_out_other_statuses (h : JsHost) (bucket : List Monitor)
    (environmentName : String) (includeDownMonitors : Bool) :
    (∀ status, objectPrototypeMembers.lookup status = none →
      (aggregate bucket includeDownMonitors).statusCounts.get status =
        JsValue.number (bucket.countP (fun m => m.attributes.status == status))) ∧
    (createEnvironmentStatusMessage h bucket environmentName includeDownMonitors).message =
      renderSummary h environmentName
        (uptimePercentage h (summaryFigures bucket includeDownMonitors).operational
          (summaryFigures bucket includeDownMonitors).total)
        (summaryFigures bucket includeDownMonitors) ∧
    (summaryFigures bucket includeDownMonitors).total = bucket.length ∧
    (summaryFigures bucket includeDownMonitors).operational
      + (summaryFigures bucket includeDownMonitors).down
      + (summaryFigures bucket includeDownMonitors).paused
      + (summaryFigures bucket includeDownMonitors).validating
      + bucket.countP (fun m => !shownStatuses.contains m.attributes.status)
      = (summaryFigures bucket includeDownMonitors).total := by
  refine ⟨aggregate_get bucket includeDownMonitors,
    createEnvironmentStatusMessage_message h bucket environmentName includeDownMonitors,
    rfl, ?_⟩
  simp only [summaryFigures, totalMonitors,
    aggregate_get bucket includeDownMonitors "up" (by decide),
    aggregate_get bucket includeDownMonitors "down" (by decide),
    aggregate_get bucket includeDownMonitors "paused" (by decide),
    aggregate_get bucket includeDownMonitors "validating" (by decide), JsValue.toNat]
  exact countP_shown_add_other bucket

/-- C12 at a concrete bucket: the one monitor with status `pending` is counted under
`pending`. -/
theorem shown_counts_leave_out_other_statuses_witness :
    (aggregate [pendingMonitor] true).statusCounts.get "pending" = JsValue.number 1 :=
  (shown_counts_leave_out_other_statuses asciiHost [pendingMonitor] "staging" true).1
    "pending" (by decide)

/-- C12, counterexample to "the counts shown add up to Total Monitors": a bucket with one
monitor of status `pending` gives Total Monitors 1 and the four counts 0; the status is
counted in `statusCounts` but the message does not mention it. -/
theorem pending_monitor_not_shown :
    (aggregate [pendingMonitor] true).statusCounts.get "pending" = JsValue.number 1 ∧
    (summaryFigures [pendingMonitor] true).total = 1 ∧
    (summaryFigures [pendingMonitor] true).operational
      + (summaryFigures [pendingMonitor] true).down
      + (summaryFigures [pendingMonitor] true).paused
      + (summaryFigures [pendingMonitor] true).validating = 0 ∧
    (createEnvironmentStatusMessage zeroHost [pendingMonitor] "staging" true).message =
      ":warning: STAGING Status - 0.0% Operational\n:bar_chart: STAGING Environment Overview - 0 Services Down\n*Total Monitors*\n1\n*Operational*\n:small_blue_diamond: 0\n*Down*\n:small_red_triangle_down: 0\n*Paused*\n:double_vertical_bar: 0\n*Validating*\n:arrows_counterclockwise: 0\n" := by
  refine ⟨by decide, by decide, by decide, ?_⟩
  set_option maxRecDepth 20000 in decide

/-- C13, the code at the empty bucket: `createEnvironmentStatusMessage` returns, and the
header of its message reads `NaN% Operational`; all the numbers are 0. -/
theorem empty_bucket_reads_NaN (h : JsHost) (environmentName : String)
    (includeDownMonitors : Bool) :
    (createEnvironmentStatusMessage h [] environmentName includeDownMonitors).message =
      renderSummary h environmentName "NaN"
        { total := 0, operational := 0, down := 0, paused := 0, validating := 0 } ∧
    (createEnvironmentStatusMessage h [] environmentName includeDownMonitors).downMonitors = [] ∧
    (createEnvironmentStatusMessage asciiHost [] "staging" true).message =
      ":warning: STAGING Status - NaN% Operational\n:bar_chart: STAGING Environment Overview - 0 Services Down\n*Total Monitors*\n0\n*Operational*\n:small_blue_diamond: 0\n*Down*\n:small_red_triangle_down: 0\n*Paused*\n:double_vertical_bar: 0\n*Validating*\n:arrows_counterclockwise: 0\n" := by
  refine ⟨rfl, rfl, ?_⟩
  set_option maxRecDepth 20000 in decide


/-! ## Chunking lemmas -/

theorem chunkLoop_flatten {α : Type} (xs : List α) (k : Nat) (hk : 1 ≤ k) (fuel i : Nat)
    (hfuel : xs.length - i ≤ fuel) :
    (chunkLoop xs k fuel i).flatten = xs.drop i := by
  induction fuel generalizing i with
  | zero =>
    rw [List.drop_eq_nil_of_le (by omega)]
    rfl
  | succ fuel ih =>
    unfold chunkLoop
    by_cases hi : i < xs.length
    · rw [if_pos hi, List.flatten_cons, ih (i + k) (by omega), ← List.drop_drop,
        List.take_append_drop]
    · rw [if_neg hi, List.drop_eq_nil_of_le (by omega)]
      rfl

theorem ceilDiv_step (m k : Nat) (hk : 1 ≤ k) (hm : 1 ≤ m) :
    (m - k + k - 1) / k + 1 = (m + k - 1) / k := by
  by_cases hmk : k ≤ m
  · have e1 : m - k + k - 1 = m - 1 := by omega
    have e2 : m + k - 1 = (m - 1) + k := by omega
    rw [e1, e2, Nat.add_div_right _ (by omega)]
  · have e1 : m - k + k - 1 = k - 1 := by omega
    rw [e1, Nat.div_eq_of_lt (by omega)]
    exact (Nat.div_eq_of_lt_le (by omega) (by omega)).symm

theorem chunkLoop_length {α : Type} (xs : List α) (k : Nat) (hk : 1 ≤ k) (fuel i : Nat)
    (hfuel : xs.length - i ≤ fuel) :
    (chunkLoop xs k fuel i).length = (xs.length - i + k - 1) / k := by
  induction fuel generalizing i with
  | zero =>
    have h0 : xs.length - i = 0 := by omega
    rw [h0, Nat.zero_add, Nat.div_eq_of_lt (by omega)]
    rfl
  | succ fuel ih =>
    unfold chunkLoop
    by_cases hi : i < xs.length
    · rw [if_pos hi, List.length_cons, ih (i + k) (by omega)]
      have e : xs.length - (i + k) = xs.length - i - k := by omega
      rw [e]
      exact ceilDiv_step (xs.length - i) k hk (by omega)
    · have h0 : xs.length - i = 0 := by omega
      rw [if_neg hi, h0, Nat.zero_add, Nat.div_eq_of_lt (by omega)]
      rfl

theorem chunkLoop_ne_nil {α : Type} (xs : List α) (k fuel i : Nat)
    (hne : chunkLoop xs k fuel i ≠ []) : i < xs.length := by
  cases fuel with
  | zero => exact absurd rfl hne
  | succ fuel =>
    unfold chunkLoop at hne
    by_cases hi : i < xs.length
    · exact hi
    · rw [if_neg hi] at hne
      exact absurd rfl hne

theorem chunkLoop_sizes {α : Type} (xs : List α) (k : Nat) (hk : 1 ≤ k) (fuel i : Nat) :
    (∀ c ∈ chunkLoop xs k fuel i, 1 ≤ c.length ∧ c.length ≤ k) ∧
    (∀ c ∈ (chunkLoop xs k fuel i).dropLast, c.length = k) := by
  induction fuel generalizing i with
  | zero => exact ⟨fun c hc => (by cases hc), fun c hc => (by cases hc)⟩
  | succ fuel ih =>
    unfold chunkLoop
    by_cases hi : i < xs.length
    · rw [if_pos hi]
      obtain ⟨ih1, ih2⟩ := ih (i + k)
      refine ⟨fun c hc => ?_, fun c hc => ?_⟩
      · rcases List.mem_cons.mp hc with rfl | hrest
        · rw [List.length_take, List.length_drop]
          omega
        · exact ih1 c hrest
      · by_cases hrest : chunkLoop xs k fuel (i + k) = []
        · rw [hrest] at hc
          cases hc
        · rw [List.dropLast_cons_of_ne_nil hrest] at hc
          have hik := chunkLoop_ne_nil xs k fuel (i + k) hrest
          rcases List.mem_cons.mp hc with rfl | hmem
          · rw [List.length_take, List.length_drop]
            omega
          · exact ih2 c hmem
    · rw [if_neg hi]
      exact ⟨fun c hc => (by cases hc), fun c hc => (by cases hc)⟩

theorem chunks_single {α : Type} (xs : List α) (k : Nat) (hne : xs ≠ [])
    (hle : xs.length ≤ k) : chunks xs k = [xs] := by
  have hpos : 0 < xs.length := List.length_pos.mpr hne
  unfold chunks
  obtain ⟨n, hn⟩ : ∃ n, xs.length = n + 1 := ⟨xs.length - 1, by omega⟩
  rw [hn]
  unfold chunkLoop
  rw [if_pos (by omega), List.drop_zero, List.take_of_length_le hle]
  cases n with
  | zero => rfl
  | succ n =>
    unfold chunkLoop
    rw [if_neg (by omega)]

/-! ## Rendering lemmas -/

theorem foldl_append_eq (f : Monitor → String) (chunk : List Monitor) (init : String) :
    chunk.foldl (fun message monitor => message ++ f monitor) init =
      init ++ String.join (chunk.map f) := by
  induction chunk generalizing init with
  | nil => simp [String.join]
  | cons m rest ih =>
    rw [List.foldl_cons, ih, List.map_cons]
    have hj : ∀ (l : List String) (a : String),
        l.foldl (fun r s => r ++ s) a = a ++ l.foldl (fun r s => r ++ s) "" := by
      intro l
      induction l with
      | nil => intro a; simp
      | cons x l ihl =>
        intro a
        rw [List.foldl_cons, List.foldl_cons, ihl (a ++ x), ihl ("" ++ x)]
        simp [String.append_assoc]
    unfold String.join
    rw [List.foldl_cons, hj (List.map f rest) ("" ++ f m)]
    simp [String.append_assoc]

theorem renderChunk_eq (index : Nat) (chunk : List Monitor) :
    renderChunk index chunk = chunkHeader index ++ String.join (chunk.map renderMonitor) := by
  unfold renderChunk chunkHeader
  exact foldl_append_eq renderMonitor chunk _

theorem renderChunks_eq (index : Nat) (cs : List (List Monitor)) :
    renderChunks index cs =
      (cs.enumFrom index).map (fun p => renderChunk p.1 p.2) := by
  induction cs generalizing index with
  | nil => rfl
  | cons c rest ih => simp [renderChunks, List.enumFrom, ih]

theorem renderChunks_length (index : Nat) (cs : List (List Monitor)) :
    (renderChunks index cs).length = cs.length := by
  rw [renderChunks_eq]
  simp

theorem createDownMonitorsMessage_of_ne_nil (downMonitors : List Monitor) (k : Nat)
    (hne : downMonitors ≠ []) :
    createDownMonitorsMessage downMonitors k =
      ((chunks downMonitors k).enum).map
        (fun p => chunkHeader p.1 ++ String.join (p.2.map renderMonitor)) := by
  have hlen : ¬ downMonitors.length = 0 := fun h0 => hne (List.length_eq_zero.mp h0)
  unfold createDownMonitorsMessage
  rw [if_neg hlen, renderChunks_eq]
  simp [List.enum, renderChunk_eq]


theorem startsWith_append (a b : String) : startsWith (a ++ b).data a.data = true := by
  rw [startsWith_iff, String.data_append]
  exact ⟨b.data, rfl⟩

theorem first_header_not_continued (rest : String) :
    startsWith (chunkHeader 0 ++ rest).data (chunkHeader 1).data = false := by
  rw [String.data_append]
  rfl

/-! ## The down-monitor messages -/

/-- C14: for a non-empty list of `n` down monitors and a chunk size `k >= 1`,
`createDownMonitorsMessage` returns `ceil(n / k)` messages: their number is
`(n + k - 1) / k`, the least `q` with `n <= q * k`. -/
theorem createDownMonitorsMessage_length (downMonitors : List Monitor) (k : Nat)
    (hne : downMonitors ≠ []) (hk : 1 ≤ k) :
    (createDownMonitorsMessage downMonitors k).length = (downMonitors.length + k - 1) / k ∧
    downMonitors.length ≤ (createDownMonitorsMessage downMonitors k).length * k ∧
    ((createDownMonitorsMessage downMonitors k).length - 1) * k < downMonitors.length := by
  have hlen : ¬ downMonitors.length = 0 := fun h0 => hne (List.length_eq_zero.mp h0)
  have hmsgs : (createDownMonitorsMessage downMonitors k).length
      = (downMonitors.length + k - 1) / k := by
    unfold createDownMonitorsMessage
    rw [if_neg hlen, renderChunks_length]
    unfold chunks
    rw [chunkLoop_length downMonitors k hk downMonitors.length 0 (by omega)]
    rfl
  have hdm := Nat.div_add_mod (downMonitors.length + k - 1) k
  have hmod := Nat.mod_lt (downMonitors.length + k - 1) (show k > 0 by omega)
  have hcomm : (downMonitors.length + k - 1) / k * k = k * ((downMonitors.length + k - 1) / k) :=
    Nat.mul_comm _ _
  have hsub : ((downMonitors.length + k - 1) / k - 1) * k
      = (downMonitors.length + k - 1) / k * k - k := by
    rw [Nat.sub_mul, Nat.one_mul]
  refine ⟨hmsgs, ?_, ?_⟩
  · rw [hmsgs, hcomm]
    omega
  · rw [hmsgs, hsub, hcomm]
    omega

/-- C14 at a concrete input: three down monitors in chunks of two give two messages. -/
theorem createDownMonitorsMessage_length_witness :
    (createDownMonitorsMessage [downMonitor, downMonitor, bareHostMonitor] 2).length
      = (3 + 2 - 1) / 2 :=
  (createDownMonitorsMessage_length [downMonitor, downMonitor, bareHostMonitor] 2
    (by decide) (by decide)).1

theorem renderMonitor_eq (m : Monitor) :
    renderMonitor m =
      "• <https://uptime.betterstack.com/team/t161704/monitors/" ++ m.id ++ "|"
        ++ (match m.attributes.pronounceable_name with
            | some n => if n = "" then m.attributes.url else n
            | none => m.attributes.url)
        ++ ">\n  path: " ++ pathDisplay m ++ "\n" := by
  have hlit : "• <https://uptime.betterstack.com/team/t161704/monitors/"
      = "• <" ++ "https://uptime.betterstack.com/team/t161704/monitors/" := by decide
  unfold renderMonitor pathDisplay
  simp only [hlit, String.append_assoc]

theorem renderMonitor_ne_empty (m : Monitor) : renderMonitor m ≠ "" := by
  rw [renderMonitor_eq]
  intro h
  have hd := congrArg String.data h
  simp only [String.data_append, String.append_assoc] at hd
  exact absurd hd (by simp)

/-- C15: for every list of down monitors and every chunk size `k >= 1`, the chunks of
`createDownMonitorsMessage`, concatenated in order, are the input list, so that their
sizes add up to its length; for a non-empty input, the message at each position is the
header followed by the entries of the monitors of the chunk at that position, in order,
an entry being the bullet line with the monitor id and name and the path line; so the
entries of all the messages, in message order, are the entries of the input monitors in
input order, and no entry is empty. -/
theorem chunks_reproduce_input (downMonitors : List Monitor) (k : Nat) (hk : 1 ≤ k) :
    (chunks downMonitors k).flatten = downMonitors ∧
    ((chunks downMonitors k).map List.length).sum = downMonitors.length ∧
    createDownMonitorsMessage downMonitors k =
      (if downMonitors = [] then [""]
       else ((chunks downMonitors k).enum).map
        (fun p => chunkHeader p.1 ++ String.join (p.2.map (fun m =>
          "• <https://uptime.betterstack.com/team/t161704/monitors/" ++ m.id ++ "|"
            ++ (match m.attributes.pronounceable_name with
                | some n => if n = "" then m.attributes.url else n
                | none => m.attributes.url)
            ++ ">\n  path: " ++ pathDisplay m ++ "\n")))) ∧
    ((chunks downMonitors k).map (fun c => c.map renderMonitor)).flatten =
      downMonitors.map (fun m =>
        "• <https://uptime.betterstack.com/team/t161704/monitors/" ++ m.id ++ "|"
          ++ (match m.attributes.pronounceable_name with
              | some n => if n = "" then m.attributes.url else n
              | none => m.attributes.url)
          ++ ">\n  path: " ++ pathDisplay m ++ "\n") ∧
    (∀ m ∈ downMonitors, renderMonitor m ≠ "") := by
  have hflat : (chunks downMonitors k).flatten = downMonitors := by
    unfold chunks
    rw [chunkLoop_flatten downMonitors k hk downMonitors.length 0 (by omega), List.drop_zero]
  have hfun : renderMonitor = (fun m =>
      "• <https://uptime.betterstack.com/team/t161704/monitors/" ++ m.id ++ "|"
        ++ (match m.attributes.pronounceable_name with
            | some n => if n = "" then m.attributes.url else n
            | none => m.attributes.url)
        ++ ">\n  path: " ++ pathDisplay m ++ "\n") := funext renderMonitor_eq
  refine ⟨hflat, ?_, ?_, ?_, fun m _ => renderMonitor_ne_empty m⟩
  · rw [← List.length_flatten, hflat]
  · by_cases hne : downMonitors = []
    · rw [if_pos hne, hne]
      rfl
    · rw [if_neg hne, createDownMonitorsMessage_of_ne_nil downMonitors k hne, hfun]
  · rw [← List.map_flatten, hflat, hfun]

/-- C15 at a concrete input: three down monitors in chunks of two give two messages, the
first with the entries of the first two monitors and the second with the entry of the
third. -/
theorem chunks_reproduce_input_witness :
    createDownMonitorsMessage [explorerDownMonitor, downMonitor, stagingDownMonitor] 2 =
      [":red_circle: Service Currently Down\n• <https://uptime.betterstack.com/team/t161704/monitors/50|http://explorer-preprod-api.mobula.io>\n  path: http://explorer-preprod-api.mobula.io\n• <https://uptime.betterstack.com/team/t161704/monitors/42|API>\n  path: https://api.mobula.io/health\n",
       ":red_circle: Service Currently Down (continued)\n• <https://uptime.betterstack.com/team/t161704/monitors/49|api.zobula.xyz/health>\n  path: https://api.zobula.xyz/health\n"] :=
  (chunks_reproduce_input [explorerDownMonitor, downMonitor, stagingDownMonitor] 2
    (by decide)).2.2.1.trans (by set_option maxRecDepth 40000 in decide)

/-- C16: for a non-empty list of down monitors and a chunk size `k >= 1`, the message at
each position is the header followed by one entry (the bullet line with the monitor id and
name, and the path line; never empty) for each monitor of the chunk at that position, so it
renders as many entries as the chunk has monitors; every chunk has at least one and at
most `k` monitors, and every chunk but the last has exactly `k`. -/
theorem chunk_sizes (downMonitors : List Monitor) (k : Nat)
    (hne : downMonitors ≠ []) (hk : 1 ≤ k) :
    createDownMonitorsMessage downMonitors k =
      ((chunks downMonitors k).enum).map
        (fun p => chunkHeader p.1 ++ String.join (p.2.map (fun m =>
          "• <https://uptime.betterstack.com/team/t161704/monitors/" ++ m.id ++ "|"
            ++ (match m.attributes.pronounceable_name with
                | some n => if n = "" then m.attributes.url else n
                | none => m.attributes.url)
            ++ ">\n  path: " ++ pathDisplay m ++ "\n"))) ∧
    (∀ m : Monitor,
      "• <https://uptime.betterstack.com/team/t161704/monitors/" ++ m.id ++ "|"
        ++ (match m.attributes.pronounceable_name with
            | some n => if n = "" then m.attributes.url else n
            | none => m.attributes.url)
        ++ ">\n  path: " ++ pathDisplay m ++ "\n" ≠ "") ∧
    (createDownMonitorsMessage downMonitors k).length = (chunks downMonitors k).length ∧
    (∀ c ∈ chunks downMonitors k, 1 ≤ c.length ∧ c.length ≤ k) ∧
    (∀ c ∈ (chunks downMonitors k).dropLast, c.length = k) := by
  have hfun : renderMonitor = (fun m =>
      "• <https://uptime.betterstack.com/team/t161704/monitors/" ++ m.id ++ "|"
        ++ (match m.attributes.pronounceable_name with
            | some n => if n = "" then m.attributes.url else n
            | none => m.attributes.url)
        ++ ">\n  path: " ++ pathDisplay m ++ "\n") := funext renderMonitor_eq
  have hmsgs := createDownMonitorsMessage_of_ne_nil downMonitors k hne
  refine ⟨?_, fun m => ?_, ?_, ?_⟩
  · rw [hmsgs, hfun]
  · rw [← renderMonitor_eq]
    exact renderMonitor_ne_empty m
  · rw [hmsgs]
    simp [List.enum]
  · exact chunkLoop_sizes downMonitors k hk downMonitors.length 0

/-- C16 at a concrete input: three down monitors in chunks of two give a first message
with two entries and a last one with one entry. -/
theorem chunk_sizes_witness :
    createDownMonitorsMessage [downMonitor, stagingDownMonitor, explorerDownMonitor] 2 =
      [":red_circle: Service Currently Down\n• <https://uptime.betterstack.com/team/t161704/monitors/42|API>\n  path: https://api.mobula.io/health\n• <https://uptime.betterstack.com/team/t161704/monitors/49|api.zobula.xyz/health>\n  path: https://api.zobula.xyz/health\n",
       ":red_circle: Service Currently Down (continued)\n• <https://uptime.betterstack.com/team/t161704/monitors/50|http://explorer-preprod-api.mobula.io>\n  path: http://explorer-preprod-api.mobula.io\n"] :=
  (chunk_sizes [downMonitor, stagingDownMonitor, explorerDownMonitor] 2 (by decide)
    (by decide)).1.trans (by set_option maxRecDepth 40000 in decide)

/-- C17: for a non-empty list of down monitors and a chunk size `k >= 1`, the first message
of `createDownMonitorsMessage` begins with `:red_circle: Service Currently Down` and a line
break, not with the continued header, and every later message begins with
`:red_circle: Service Currently Down (continued)` and a line break; a list of at most 15
monitors with chunk size 15 gives one message, with the first header. -/
theorem message_headers (downMonitors : List Monitor) (k : Nat)
    (hne : downMonitors ≠ []) (hk : 1 ≤ k) :
    (∃ first rest, createDownMonitorsMessage downMonitors k = first :: rest ∧
      startsWith first.data ":red_circle: Service Currently Down\n".data = true ∧
      startsWith first.data ":red_circle: Service Currently Down (continued)\n".data = false ∧
      ∀ m ∈ rest,
        startsWith m.data ":red_circle: Service Currently Down (continued)\n".data = true) ∧
    (downMonitors.length ≤ 15 →
      createDownMonitorsMessage downMonitors 15 =
        [":red_circle: Service Currently Down\n"
          ++ String.join (downMonitors.map renderMonitor)]) := by
  have hlen : ¬ downMonitors.length = 0 := fun h0 => hne (List.length_eq_zero.mp h0)
  refine ⟨?_, fun h15 => ?_⟩
  · have hc : chunks downMonitors k ≠ [] := by
      intro hnil
      have hl := chunkLoop_length downMonitors k hk downMonitors.length 0 (by omega)
      unfold chunks at hnil
      rw [hnil, List.length_nil, Nat.sub_zero] at hl
      have hpos : 0 < (downMonitors.length + k - 1) / k :=
        Nat.div_pos (by omega) (by omega)
      omega
    obtain ⟨c, cs, hcs⟩ := List.exists_cons_of_ne_nil hc
    refine ⟨renderChunk 0 c, renderChunks 1 cs, ?_, ?_, ?_, ?_⟩
    · unfold createDownMonitorsMessage
      rw [if_neg hlen, hcs]
      rfl
    · rw [renderChunk_eq]
      exact startsWith_append _ _
    · rw [renderChunk_eq]
      exact first_header_not_continued _
    · intro m hm
      rw [renderChunks_eq, List.mem_map] at hm
      obtain ⟨p, hp, rfl⟩ := hm
      have hidx : 1 ≤ p.1 := List.le_fst_of_mem_enumFrom hp
      rw [renderChunk_eq]
      have hh : chunkHeader p.1 = ":red_circle: Service Currently Down (continued)\n" := by
        unfold chunkHeader
        rw [if_neg (by omega)]
      rw [hh]
      exact startsWith_append _ _
  · unfold createDownMonitorsMessage
    rw [if_neg hlen, chunks_single downMonitors 15 hne h15]
    show [renderChunk 0 downMonitors] = _
    rw [renderChunk_eq]
    rfl

/-- C17 at a concrete input: three down monitors with the default chunk size give one
message. -/
theorem message_headers_witness :
    createDownMonitorsMessage [downMonitor, downMonitor, bareHostMonitor] 15 =
      [":red_circle: Service Currently Down\n"
        ++ String.join ([downMonitor, downMonitor, bareHostMonitor].map renderMonitor)] :=
  (message_headers [downMonitor, downMonitor, bareHostMonitor] 15 (by decide) (by decide)).2
    (by decide)

/-- C18, as the code has it: for the empty list of down monitors and every chunk size,
`createDownMonitorsMessage` returns the one-element list holding the empty string, which
the sending loop skips, so that nothing is posted. -/
theorem createDownMonitorsMessage_nil (k : Nat) (o : Oracle) (webhookUrl : String)
    (w : World) :
    createDownMonitorsMessage [] k = [""] ∧
    (createDownMonitorsMessage [] k).filter (fun m => m ≠ "") = [] ∧
    sendDownMessages o webhookUrl (createDownMonitorsMessage [] k) w = (Except.ok (), w) := by
  have hf : (createDownMonitorsMessage [] k).filter (fun m => m ≠ "") = [] := rfl
  refine ⟨rfl, hf, ?_⟩
  rw [sendDownMessages_run, hf]
  simp

/-- C18, counterexample to "returns an empty list": with the default chunk size the result
for the empty list has one element. -/
theorem empty_list_gives_one_message :
    createDownMonitorsMessage [] 15 ≠ [] ∧ (createDownMonitorsMessage [] 15).length = 1 := by
  decide


/-! ## The path reference of a down monitor -/

theorem jsLength_append (a b : String) : jsLength (a ++ b) = jsLength a + jsLength b := by
  simp [jsLength, String.data_append, List.map_append, List.sum_append]

theorem placeholder_ne (u : String) : "<" ++ u ++ "|path>" ≠ u := by
  intro heq
  have hlen := congrArg String.length heq
  simp only [String.length_append] at hlen
  have h1 : "<".length = 1 := rfl
  have h2 : "|path>".length = 6 := rfl
  omega

theorem ensureHttps_eq (url : String) :
    ensureHttps url =
      if startsWith url.data "http://".data || startsWith url.data "https://".data then url
      else "https://" ++ url := by
  unfold ensureHttps
  cases startsWith url.data "http://".data <;> cases startsWith url.data "https://".data <;> rfl

/-- C19, as the code has it: the path reference of a down monitor is the placeholder
`<U|path>` exactly when `U`, the URL after `ensureHttps`, is longer than 100 UTF-16 code
units, and is `U` in full otherwise.  `U` is the URL itself when it starts with `http://` or
`https://`, and then the threshold is on the URL; otherwise `U` is the URL with `https://`
in front, 8 code units longer. -/
theorem pathDisplay_threshold (monitor : Monitor) :
    renderMonitor monitor =
      "• <" ++ ("https://uptime.betterstack.com/team/t161704/monitors/" ++ monitor.id) ++ "|"
        ++ (match monitor.attributes.pronounceable_name with
            | some n => if n = "" then monitor.attributes.url else n
            | none => monitor.attributes.url)
        ++ ">\n  path: " ++ pathDisplay monitor ++ "\n" ∧
    (pathDisplay monitor = "<" ++ ensureHttps monitor.attributes.url ++ "|path>" ↔
      jsLength (ensureHttps monitor.attributes.url) > 100) ∧
    (pathDisplay monitor = ensureHttps monitor.attributes.url ↔
      jsLength (ensureHttps monitor.attributes.url) ≤ 100) ∧
    ensureHttps monitor.attributes.url =
      (if startsWith monitor.attributes.url.data "http://".data
          || startsWith monitor.attributes.url.data "https://".data
        then monitor.attributes.url else "https://" ++ monitor.attributes.url) ∧
    jsLength (ensureHttps monitor.attributes.url) =
      (if startsWith monitor.attributes.url.data "http://".data
          || startsWith monitor.attributes.url.data "https://".data
        then jsLength monitor.attributes.url else jsLength monitor.attributes.url + 8) := by
  refine ⟨rfl, ?_, ?_, ensureHttps_eq _, ?_⟩
  · unfold pathDisplay
    by_cases hlong : jsLength (ensureHttps monitor.attributes.url) > 100
    · simp [hlong]
    · simp only [hlong, if_false, iff_false]
      exact fun heq => placeholder_ne _ heq.symm
  · unfold pathDisplay
    by_cases hlong : jsLength (ensureHttps monitor.attributes.url) > 100
    · simp only [hlong, if_true]
      constructor
      · exact fun heq => absurd heq (placeholder_ne _)
      · intro hle; omega
    · simp only [hlong, if_false, true_iff]
      omega
  · rw [ensureHttps_eq]
    split
    · rfl
    · rw [jsLength_append, Nat.add_comm]
      rfl

/-- C19, counterexample to "if and only if the URL is longer than 100 characters": a URL
of 95 characters without a scheme is shown as the placeholder, because `https://` is put in
front before the length is tested. -/
theorem bare_host_url_gets_placeholder :
    jsLength bareHostMonitor.attributes.url = 95 ∧
    bareHostMonitor.attributes.url.length = 95 ∧
    pathDisplay bareHostMonitor =
      "<" ++ ("https://" ++ bareHostMonitor.attributes.url) ++ "|path>" ∧
    pathDisplay bareHostMonitor ≠ bareHostMonitor.attributes.url ∧
    pathDisplay bareHostMonitor ≠ "https://" ++ bareHostMonitor.attributes.url := by
  refine ⟨by decide, by decide, by decide, by decide, by decide⟩

/-! ## Fetching the pages -/

theorem fetchLoop_eq (pages : List PageResponse) (allMonitors : List Monitor) :
    fetchLoop pages allMonitors = allMonitors ++ (pagesFetched pages).flatten := by
  induction pages generalizing allMonitors with
  | nil => simp [fetchLoop, pagesFetched]
  | cons p rest ih =>
    cases p with
    | failure => simp [fetchLoop, pagesFetched]
    | page data next =>
      cases next
      · simp [fetchLoop, pagesFetched]
      · simp [fetchLoop, pagesFetched, ih]

/-- C20: over any finite sequence of page responses, `fetchAllMonitors` returns (it is a
total function, the failure of a page is caught inside the loop) the monitors of the pages
fetched, concatenated in page order, up to the first failure or the first page without a
next link; when page 1 succeeds with a next link and page 2 fails, the result is the
monitors of page 1, for instance 50 of them. -/
theorem fetchAllMonitors_partial_result (pages : List PageResponse) :
    fetchAllMonitors pages = (pagesFetched pages).flatten ∧
    (∀ (data : List Monitor) (rest : List PageResponse),
      fetchAllMonitors (PageResponse.page data true :: PageResponse.failure :: rest) = data) ∧
    (∀ (data : List Monitor) (rest : List PageResponse),
      fetchAllMonitors (PageResponse.page data false :: rest) = data) ∧
    (∀ rest : List PageResponse, fetchAllMonitors (PageResponse.failure :: rest) = []) ∧
    (fetchAllMonitors
      [PageResponse.page (List.replicate 50 upMonitor) true, PageResponse.failure]).length
        = 50 := by
  refine ⟨?_, fun data rest => ?_, fun data rest => ?_, fun rest => rfl, by decide⟩
  · unfold fetchAllMonitors
    rw [fetchLoop_eq, List.nil_append]
  · simp [fetchAllMonitors, fetchLoop]
  · simp [fetchAllMonitors, fetchLoop]


/-! ## The two rule sets compared -/

theorem includes_health_imp (url : List Char)
    (hh : includes url "explorer-api.zobula.xyz/health".data = true) :
    includes url "explorer-api.zobula.xyz".data = true := by
  obtain ⟨a, b, hab⟩ := (includes_iff _ _).mp hh
  refine (includes_iff _ _).mpr ⟨a, "/health".data ++ b, ?_⟩
  rw [hab]
  have hs : "explorer-api.zobula.xyz/health".data
      = "explorer-api.zobula.xyz".data ++ "/health".data := by decide
  rw [hs]
  simp [List.append_assoc]

/-- C22, as the code has it: for a monitor of the input whose lower-cased URL contains
neither `explorer-api.mobula.io` nor `explorer-api.zobula.xyz`, the three-environment
script never puts it in `explorerPreprod`, and the two scripts choose the same bucket
(production, staging or none) exactly when the URL does not contain
`explorer-api-2.mobula.io` without containing `api.mobula.io`; in that case the monitor is
in the production bucket of one script iff it is in that of the other, and likewise for
staging. -/
theorem variants_agree_outside_explorer (h : JsHost) (monitors : List Monitor) (m : Monitor)
    (hm : m ∈ monitors)
    (hno1 : includes (toLowerCase h m.attributes.url) "explorer-api.mobula.io".data = false)
    (hno2 : includes (toLowerCase h m.attributes.url) "explorer-api.zobula.xyz".data = false) :
    (AlertSummary.bucketOf h m = Slack.bucketOf h m ↔
      (includes (toLowerCase h m.attributes.url) "explorer-api-2.mobula.io".data = true →
        includes (toLowerCase h m.attributes.url) "api.mobula.io".data = true)) ∧
    Slack.bucketOf h m ≠ some Bucket.explorerPreprod ∧
    m ∉ (Slack.categorizeMonitors h monitors).explorerPreprod ∧
    ((includes (toLowerCase h m.attributes.url) "explorer-api-2.mobula.io".data = true →
        includes (toLowerCase h m.attributes.url) "api.mobula.io".data = true) →
      (m ∈ (AlertSummary.categorizeMonitors h monitors).production ↔
        m ∈ (Slack.categorizeMonitors h monitors).production) ∧
      (m ∈ (AlertSummary.categorizeMonitors h monitors).staging ↔
        m ∈ (Slack.categorizeMonitors h monitors).staging)) := by
  have hnoh : includes (toLowerCase h m.attributes.url) "explorer-api.zobula.xyz/health".data
      = false := by
    cases hh : includes (toLowerCase h m.attributes.url) "explorer-api.zobula.xyz/health".data
    · rfl
    · rw [includes_health_imp _ hh] at hno2
      cases hno2
  have hiff : AlertSummary.bucketOf h m = Slack.bucketOf h m ↔
      (includes (toLowerCase h m.attributes.url) "explorer-api-2.mobula.io".data = true →
        includes (toLowerCase h m.attributes.url) "api.mobula.io".data = true) := by
    rw [AlertSummary.bucketOf_eq_firstMatch, Slack.bucketOf3_eq]
    cases h1 : includes (toLowerCase h m.attributes.url) "explorer-api-2.mobula.io".data <;>
    cases h4 : includes (toLowerCase h m.attributes.url) "api.mobula.io".data <;>
    cases h5 : includes (toLowerCase h m.attributes.url) "api.zobula.xyz".data <;>
    simp [AlertSummary.rules, AlertSummary.firstMatch, h1, h4, h5, hno1, hno2, hnoh]
  have hnp : Slack.bucketOf h m ≠ some Bucket.explorerPreprod := by
    rw [Slack.bucketOf3_eq]
    cases h4 : includes (toLowerCase h m.attributes.url) "api.mobula.io".data <;>
    cases h5 : includes (toLowerCase h m.attributes.url) "api.zobula.xyz".data <;>
    simp [h4, h5, hno2, hnoh]
  refine ⟨hiff, hnp, ?_, fun hcond => ?_⟩
  · rw [Slack.categorizeMonitors3_eq_filter]
    simp [List.mem_filter, hnp]
  · have heq := hiff.mpr hcond
    rw [AlertSummary.categorizeMonitors_eq_filter, Slack.categorizeMonitors3_eq_filter]
    simp [List.mem_filter, hm, heq]

/-- C22 at a concrete input: a monitor of the production API gets the same bucket in both
scripts. -/
theorem variants_agree_outside_explorer_witness :
    AlertSummary.bucketOf asciiHost upMonitor = Slack.bucketOf asciiHost upMonitor :=
  (variants_agree_outside_explorer asciiHost [upMonitor] upMonitor (by decide) (by decide)
    (by decide)).1.mpr (fun _ => by decide)

/-- C22, counterexample: the lower-cased URL of a monitor of `explorer-api-2.mobula.io`
contains neither `explorer-api.mobula.io` nor `explorer-api.zobula.xyz`; the two-environment
script puts it in production, the three-environment script in no bucket. -/
theorem explorer_api_2_dropped_by_three_bucket_variant :
    includes (toLowerCase asciiHost explorer2Monitor.attributes.url)
      "explorer-api.mobula.io".data = false ∧
    includes (toLowerCase asciiHost explorer2Monitor.attributes.url)
      "explorer-api.zobula.xyz".data = false ∧
    AlertSummary.categorizeMonitors asciiHost [explorer2Monitor] =
      { production := [explorer2Monitor], staging := [] } ∧
    Slack.categorizeMonitors asciiHost [explorer2Monitor] =
      { production := [], staging := [], explorerPreprod := [] } := by
  decide


/-! ## The order of the dispatches -/

theorem postsOf_append (xs ys : List Event) :
    postsOf (xs ++ ys) = postsOf xs ++ postsOf ys := by
  simp [postsOf]

theorem postsOf_map_post (webhookUrl : String) (texts : List String) :
    postsOf (texts.map (Event.post webhookUrl)) = texts.map (fun t => (webhookUrl, t)) := by
  induction texts with
  | nil => rfl
  | cons t rest ih =>
    rw [List.map_cons, List.map_cons, ← ih]
    rfl

theorem chunkHeader_append_ne_empty (index : Nat) (rest : String) :
    chunkHeader index ++ rest ≠ "" := by
  intro heq
  have hlen := congrArg String.length heq
  rw [String.length_append] at hlen
  have hpos : 0 < (chunkHeader index).length := by
    unfold chunkHeader
    split <;> decide
  have h0 : "".length = 0 := rfl
  omega

/-- The messages for a non-empty list of down monitors are all non-empty, so that the
sending loop skips none. -/
theorem createDownMonitorsMessage_filter (downMonitors : List Monitor) (k : Nat)
    (hne : downMonitors ≠ []) :
    (createDownMonitorsMessage downMonitors k).filter (fun m => m ≠ "") =
      ((chunks downMonitors k).enum).map
        (fun p => chunkHeader p.1 ++ String.join (p.2.map renderMonitor)) := by
  rw [createDownMonitorsMessage_of_ne_nil downMonitors k hne, List.filter_eq_self]
  intro m hm
  obtain ⟨p, _, rfl⟩ := List.mem_map.mp hm
  simpa using chunkHeader_append_ne_empty p.1 _

/-- The posts of an environment that is notified, read off the messages the code builds. -/
theorem expectedPosts_eq (h : JsHost) (webhookUrl environment : String)
    (bucket : List Monitor) :
    expectedPosts h webhookUrl environment bucket =
      (webhookUrl, (createEnvironmentStatusMessage h bucket environment true).message) ::
        (if (createEnvironmentStatusMessage h bucket environment true).downMonitors = [] then []
         else ((createDownMonitorsMessage
            (createEnvironmentStatusMessage h bucket environment true).downMonitors 15).filter
              (fun m => m ≠ "")).map (fun t => (webhookUrl, t))) := by
  unfold expectedPosts
  by_cases hd : (createEnvironmentStatusMessage h bucket environment true).downMonitors = []
  · rw [if_pos hd, hd]
    rfl
  · rw [if_neg hd, createDownMonitorsMessage_filter _ 15 hd, List.map_map]
    rfl

namespace Slack

theorem notifyEnvironment3_run (h : JsHost) (o : Oracle) (webhookUrl environment : String)
    (bucket : List Monitor) (w : World) :
    (notifyEnvironment h o webhookUrl environment bucket w).1 = Except.ok () ∧
    (notifyEnvironment h o webhookUrl environment bucket w).2.store = w.store ∧
    (notifyEnvironment h o webhookUrl environment bucket w).2.tick =
      w.tick + (expectedPosts h webhookUrl environment bucket).length ∧
    (notifyEnvironment h o webhookUrl environment bucket w).2.trace =
      w.trace ++ (expectedPosts h webhookUrl environment bucket).map
        (fun p => Event.post p.1 p.2) := by
  rw [expectedPosts_eq]
  by_cases hd : (createEnvironmentStatusMessage h bucket environment true).downMonitors = []
  · unfold notifyEnvironment
    simp [hd, sendSlackAlert_run]
  · have hlen : (createEnvironmentStatusMessage h bucket environment true).downMonitors.length
        > 0 := List.length_pos.mpr hd
    unfold notifyEnvironment
    simp [hd, hlen, sendSlackAlert_run, sendDownMessages_run, Nat.add_assoc, Nat.add_comm 1]

end Slack


theorem World.eq_of_fields (w1 w2 : World) (hs : w1.store = w2.store) (ht : w1.tick = w2.tick)
    (hr : w1.trace = w2.trace) : w1 = w2 := by
  cases w1
  cases w2
  simp only at hs ht hr
  subst hs ht hr
  rfl

namespace Slack

theorem notifyEnvironment3_any_oracle (h : JsHost) (o o2 : Oracle)
    (webhookUrl environment : String) (bucket : List Monitor) (w : World) :
    notifyEnvironment h o webhookUrl environment bucket w =
      notifyEnvironment h o2 webhookUrl environment bucket w := by
  obtain ⟨a1, a2, a3, a4⟩ := notifyEnvironment3_run h o webhookUrl environment bucket w
  obtain ⟨b1, b2, b3, b4⟩ := notifyEnvironment3_run h o2 webhookUrl environment bucket w
  refine Prod.ext (a1.trans b1.symm) (World.eq_of_fields _ _ ?_ ?_ ?_)
  · rw [a2, b2]
  · rw [a3, b3]
  · rw [a4, b4]

/-- The run is the three blocks in turn; the `catch` branch is never taken. -/
theorem checkSystemStatus3_run (h : JsHost) (cfg : AlertSummary.Config) (o : Oracle)
    (pages : List PageResponse) (w : World) :
    checkSystemStatus h cfg o pages w =
      (Except.ok (),
        (notifyEnvironment h o cfg.SLACK_WEBHOOK_URL_STAGING "explorer-preprod"
          (categorizeMonitors h (fetchAllMonitors pages)).explorerPreprod
          (notifyEnvironment h o cfg.SLACK_WEBHOOK_URL_STAGING "staging"
            (categorizeMonitors h (fetchAllMonitors pages)).staging
            (notifyEnvironment h o cfg.SLACK_WEBHOOK_URL_PRODUCTION "production"
              (categorizeMonitors h (fetchAllMonitors pages)).production w).2).2).2) := by
  have h1 := (notifyEnvironment3_run h o cfg.SLACK_WEBHOOK_URL_PRODUCTION "production"
    (categorizeMonitors h (fetchAllMonitors pages)).production w).1
  unfold checkSystemStatus Eff.tryCatch
  simp only [run_bind]
  generalize notifyEnvironment h o cfg.SLACK_WEBHOOK_URL_PRODUCTION "production"
      (categorizeMonitors h (fetchAllMonitors pages)).production w = r1 at h1 ⊢
  obtain ⟨e1, w1⟩ := r1
  simp only at h1 ⊢
  subst h1
  simp only
  have h2 := (notifyEnvironment3_run h o cfg.SLACK_WEBHOOK_URL_STAGING "staging"
    (categorizeMonitors h (fetchAllMonitors pages)).staging w1).1
  generalize notifyEnvironment h o cfg.SLACK_WEBHOOK_URL_STAGING "staging"
      (categorizeMonitors h (fetchAllMonitors pages)).staging w1 = r2 at h2 ⊢
  obtain ⟨e2, w2⟩ := r2
  simp only at h2 ⊢
  subst h2
  simp only
  have h3 := (notifyEnvironment3_run h o cfg.SLACK_WEBHOOK_URL_STAGING "explorer-preprod"
    (categorizeMonitors h (fetchAllMonitors pages)).explorerPreprod w2).1
  generalize notifyEnvironment h o cfg.SLACK_WEBHOOK_URL_STAGING "explorer-preprod"
      (categorizeMonitors h (fetchAllMonitors pages)).explorerPreprod w2 = r3 at h3 ⊢
  obtain ⟨e3, w3⟩ := r3
  simp only at h3 ⊢
  subst h3
  rfl

theorem checkSystemStatus3_posts (h : JsHost) (cfg : AlertSummary.Config) (o : Oracle)
    (pages : List PageResponse) (w : World) :
    postsOf (checkSystemStatus h cfg o pages w).2.trace =
      postsOf w.trace
        ++ expectedPosts h cfg.SLACK_WEBHOOK_URL_PRODUCTION "production"
            (categorizeMonitors h (fetchAllMonitors pages)).production
        ++ expectedPosts h cfg.SLACK_WEBHOOK_URL_STAGING "staging"
            (categorizeMonitors h (fetchAllMonitors pages)).staging
        ++ expectedPosts h cfg.SLACK_WEBHOOK_URL_STAGING "explorer-preprod"
            (categorizeMonitors h (fetchAllMonitors pages)).explorerPreprod := by
  have hmap : ∀ l : List (String × String),
      postsOf (l.map (fun p => Event.post p.1 p.2)) = l := by
    intro l
    induction l with
    | nil => rfl
    | cons p rest ih =>
      rw [List.map_cons]
      show (p.1, p.2) :: postsOf (rest.map (fun p => Event.post p.1 p.2)) = p :: rest
      rw [ih]
  rw [checkSystemStatus3_run]
  simp only [(notifyEnvironment3_run h o _ _ _ _).2.2.2, postsOf_append, hmap]

end Slack

namespace AlertSummary

theorem shouldSend_withPostOutcomes (o : Oracle) (p : Nat → Bool) (environment : String)
    (w : World) :
    shouldSendNoAlertNotification (withPostOutcomes o p) environment w =
      shouldSendNoAlertNotification o environment w := by
  rw [shouldSendNoAlertNotification_run, shouldSendNoAlertNotification_run]
  rfl

theorem notifyEnvironment_withPostOutcomes (h : JsHost) (o : Oracle) (p : Nat → Bool)
    (webhookUrl environment : String) (bucket : List Monitor) (w : World) :
    notifyEnvironment h (withPostOutcomes o p) webhookUrl environment bucket w =
      notifyEnvironment h o webhookUrl environment bucket w := by
  by_cases hd : (createEnvironmentStatusMessage h bucket environment true).downMonitors = []
  · rw [notifyEnvironment_run_clear h _ webhookUrl environment bucket w hd,
      notifyEnvironment_run_clear h o webhookUrl environment bucket w hd,
      shouldSend_withPostOutcomes]
    rfl
  · rw [notifyEnvironment_run_alerts h _ webhookUrl environment bucket w hd,
      notifyEnvironment_run_alerts h o webhookUrl environment bucket w hd]

theorem worldBefore_withPostOutcomes (h : JsHost) (cfg : Config) (o : Oracle)
    (p : Nat → Bool) (pages : List PageResponse) (w : World) (env : Environment) :
    worldBefore h cfg (withPostOutcomes o p) pages w env = worldBefore h cfg o pages w env := by
  cases env with
  | production => rfl
  | staging =>
    unfold worldBefore
    rw [notifyEnvironment_withPostOutcomes]

theorem worldAfter_withPostOutcomes (h : JsHost) (cfg : Config) (o : Oracle)
    (p : Nat → Bool) (pages : List PageResponse) (w : World) (env : Environment) :
    worldAfter h cfg (withPostOutcomes o p) pages w env = worldAfter h cfg o pages w env := by
  unfold worldAfter
  rw [notifyEnvironment_withPostOutcomes, worldBefore_withPostOutcomes]

/-- The posts made while an environment is processed: none when it is not notified, else
the summary and then the down-monitor messages. -/
theorem postsOf_eventsOf (h : JsHost) (cfg : Config) (o : Oracle) (pages : List PageResponse)
    (w : World) (env : Environment) :
    postsOf (eventsOf h cfg o pages w env) =
      if notifies h cfg o pages w env then
        expectedPosts h (env.webhook cfg) env.key (bucketInRun h pages env)
      else [] := by
  rw [expectedPosts_eq]
  unfold notifies
  by_cases hd : (createEnvironmentStatusMessage h (bucketInRun h pages env) env.key
      true).downMonitors = []
  · have ht := (notifyEnvironment_clear h o (env.webhook cfg) env.key
      (bucketInRun h pages env) (worldBefore h cfg o pages w env) hd).1
    rw [eventsOf_eq h cfg o pages w env _ ht, hd]
    cases returnedTrue (shouldSendNoAlertNotification o env.key
        (worldBefore h cfg o pages w env)).1 <;> simp [postsOf]
  · have ht := (notifyEnvironment_alerts h o (env.webhook cfg) env.key
      (bucketInRun h pages env) (worldBefore h cfg o pages w env) hd).1
    have hne : (createEnvironmentStatusMessage h (bucketInRun h pages env) env.key
        true).downMonitors.isEmpty = false := by
      simpa [List.isEmpty_iff] using hd
    rw [eventsOf_eq h cfg o pages w env _ ht, hne, if_neg hd]
    simp only [Bool.not_false, Bool.true_or, if_true]
    rw [← List.map_cons (Event.post (env.webhook cfg)), postsOf_map_post, List.map_cons]

theorem checkSystemStatus_posts (h : JsHost) (cfg : Config) (o : Oracle)
    (pages : List PageResponse) (w : World) :
    postsOf (checkSystemStatus h cfg o pages w).2.trace =
      postsOf w.trace
        ++ postsOf (eventsOf h cfg o pages w Environment.production)
        ++ postsOf (eventsOf h cfg o pages w Environment.staging) := by
  rw [checkSystemStatus_run, worldAfter_trace]
  have hb : worldBefore h cfg o pages w Environment.staging =
      worldAfter h cfg o pages w Environment.production := rfl
  rw [hb, worldAfter_trace]
  have hp : worldBefore h cfg o pages w Environment.production = w := rfl
  rw [hp, postsOf_append, postsOf_append]

end AlertSummary


/-- C21: in both scripts the world a run of `checkSystemStatus` leaves, and with it the
ordered sequence of webhook posts (destination, text), is the same for every assignment of
outcomes to the posts.  In the three-environment script the posts are, for production,
then staging, then explorer-preprod, the summary followed by the down-monitor messages by
increasing chunk index; in the two-environment script they are the same for production,
then staging, where an environment without down monitors that the throttle suppresses has
no post, and whether it is suppressed does not depend on the outcomes of the posts. -/
theorem dispatch_order_fixed (h : JsHost) (cfg : AlertSummary.Config) (o : Oracle)
    (pages : List PageResponse) (w : World) (p p2 : Nat → Bool) :
    (AlertSummary.checkSystemStatus h cfg (withPostOutcomes o p) pages w).2 =
      (AlertSummary.checkSystemStatus h cfg (withPostOutcomes o p2) pages w).2 ∧
    postsOf (AlertSummary.checkSystemStatus h cfg (withPostOutcomes o p) pages w).2.trace =
      postsOf w.trace
        ++ (if AlertSummary.notifies h cfg o pages w AlertSummary.Environment.production then
              expectedPosts h cfg.SLACK_WEBHOOK_URL_PRODUCTION "production"
                (AlertSummary.categorizeMonitors h (fetchAllMonitors pages)).production
            else [])
        ++ (if AlertSummary.notifies h cfg o pages w AlertSummary.Environment.staging then
              expectedPosts h cfg.SLACK_WEBHOOK_URL_STAGING "staging"
                (AlertSummary.categorizeMonitors h (fetchAllMonitors pages)).staging
            else []) ∧
    (Slack.checkSystemStatus h cfg (withPostOutcomes o p) pages w).2 =
      (Slack.checkSystemStatus h cfg (withPostOutcomes o p2) pages w).2 ∧
    postsOf (Slack.checkSystemStatus h cfg (withPostOutcomes o p) pages w).2.trace =
      postsOf w.trace
        ++ expectedPosts h cfg.SLACK_WEBHOOK_URL_PRODUCTION "production"
            (Slack.categorizeMonitors h (fetchAllMonitors pages)).production
        ++ expectedPosts h cfg.SLACK_WEBHOOK_URL_STAGING "staging"
            (Slack.categorizeMonitors h (fetchAllMonitors pages)).staging
        ++ expectedPosts h cfg.SLACK_WEBHOOK_URL_STAGING "explorer-preprod"
            (Slack.categorizeMonitors h (fetchAllMonitors pages)).explorerPreprod := by
  have hrun : ∀ q : Nat → Bool,
      (AlertSummary.checkSystemStatus h cfg (withPostOutcomes o q) pages w).2 =
        (AlertSummary.checkSystemStatus h cfg o pages w).2 := by
    intro q
    rw [AlertSummary.checkSystemStatus_run, AlertSummary.checkSystemStatus_run,
      AlertSummary.worldAfter_withPostOutcomes]
  refine ⟨(hrun p).trans (hrun p2).symm, ?_, ?_, Slack.checkSystemStatus3_posts h cfg _ pages w⟩
  · rw [hrun p, AlertSummary.checkSystemStatus_posts, AlertSummary.postsOf_eventsOf,
      AlertSummary.postsOf_eventsOf]
    rfl
  · rw [Slack.checkSystemStatus3_run, Slack.checkSystemStatus3_run]
    simp only [Slack.notifyEnvironment3_any_oracle h (withPostOutcomes o p)
      (withPostOutcomes o p2)]

end BetterStack
